import Mathlib

/-!
Verification development for the retirement-planning simulator
(`retire_sim`: `israeli_tax.py`, `model.py`, `search.py`).

The Python code computes with IEEE floats; the embedding uses exact
rationals (`ℚ`).  Python's `round` (banker's rounding, half-to-even) is
modelled by `pyRound`.  Python `Optional` list parameters are modelled by
plain lists (Python treats `None` and `[]` the same way, via truthiness).
Reason strings keep the source's wording; numeric values interpolated by
Python f-strings are omitted from the strings (float formatting has no
exact counterpart over `ℚ`).

The only intentional deviation: the source derives the monthly return
rate from the annual rate as `(1+annual)**(1/12) - 1`, a real 12th root
with no exact rational value.  `Params` therefore carries the monthly
rate `r_month` itself as the parameter; it equals the source's value
exactly when the annual rate is `0` (the case exercised by the
zero-return claims), and every theorem below is proved for an arbitrary
rational `r_month`.
-/

/-- Single tax bracket with threshold and rate (`israeli_tax.TaxBracket`). -/
structure TaxBracket where
  threshold : ℚ
  rate : ℚ
  base_tax : ℚ

/-- 2025/2026 Israeli income-tax brackets (`israeli_tax.ISRAELI_TAX_BRACKETS`). -/
def ISRAELI_TAX_BRACKETS : List TaxBracket :=
  [ { threshold := 0,      rate := 10/100, base_tax := 0 },
    { threshold := 84120,  rate := 14/100, base_tax := 8412 },
    { threshold := 120720, rate := 20/100, base_tax := 13536 },
    { threshold := 193800, rate := 31/100, base_tax := 28152 },
    { threshold := 269280, rate := 35/100, base_tax := 51551 },
    { threshold := 560280, rate := 47/100, base_tax := 153401 },
    { threshold := 721560, rate := 50/100, base_tax := 229203 } ]

/-- The bracket scan of `israeli_tax.calculate_income_tax`: on the last
bracket, tax is charged only above its threshold (otherwise the
initial `tax = 0.0` survives); on earlier brackets the first one whose
successor's threshold covers the income fires and the loop breaks. -/
def bracketScan : List TaxBracket → ℚ → ℚ
  | [], _ => 0
  | [b], a => if b.threshold < a then b.base_tax + (a - b.threshold) * b.rate else 0
  | b :: nb :: rest, a =>
    if a ≤ nb.threshold then b.base_tax + (a - b.threshold) * b.rate
    else bracketScan (nb :: rest) a

/-- `israeli_tax.calculate_income_tax`: progressive annual income tax. -/
def calculate_income_tax (annual_income : ℚ) : ℚ :=
  if annual_income ≤ 0 then 0 else bracketScan ISRAELI_TAX_BRACKETS annual_income

/-- National-insurance configuration (`israeli_tax.NATIONAL_INSURANCE`). -/
structure NationalInsuranceConfig where
  rate_low : ℚ
  rate_high : ℚ
  threshold_low_monthly : ℚ
  cap_monthly : ℚ

def NATIONAL_INSURANCE : NationalInsuranceConfig :=
  { rate_low := 427/10000, rate_high := 1217/10000,
    threshold_low_monthly := 7522, cap_monthly := 50695 }

/-- `israeli_tax.calculate_national_insurance`: two-tier monthly levy with cap. -/
def calculate_national_insurance (monthly_income : ℚ) : ℚ :=
  if monthly_income ≤ 0 then 0
  else
    let capped := min monthly_income NATIONAL_INSURANCE.cap_monthly
    if capped ≤ NATIONAL_INSURANCE.threshold_low_monthly then
      capped * NATIONAL_INSURANCE.rate_low
    else
      NATIONAL_INSURANCE.threshold_low_monthly * NATIONAL_INSURANCE.rate_low
        + (capped - NATIONAL_INSURANCE.threshold_low_monthly) * NATIONAL_INSURANCE.rate_high

/-- `israeli_tax.calculate_monthly_tax_from_gross`: annualize, apply the
brackets, add monthly national insurance. -/
def calculate_monthly_tax_from_gross (gross_monthly_income : ℚ) : ℚ :=
  if gross_monthly_income ≤ 0 then 0
  else calculate_income_tax (gross_monthly_income * 12) / 12
        + calculate_national_insurance gross_monthly_income

/-- `model.get_income_at_age`: most recent schedule entry at or before `age`,
else the base income.  An empty schedule (Python `None` or `[]`) returns the base. -/
def get_income_at_age (age base_income : ℚ) (income_schedule : List (ℚ × ℚ)) : ℚ :=
  match income_schedule with
  | [] => base_income
  | _ =>
    let applicable := income_schedule.filter (fun e => e.1 ≤ age)
    match applicable.getLast? with
    | some e => e.2
    | none => base_income

/-- `model.get_expense_at_age`: same lookup as `get_income_at_age`, for expenses. -/
def get_expense_at_age (age base_expense : ℚ) (expense_schedule : List (ℚ × ℚ)) : ℚ :=
  match expense_schedule with
  | [] => base_expense
  | _ =>
    let applicable := expense_schedule.filter (fun e => e.1 ≤ age)
    match applicable.getLast? with
    | some e => e.2
    | none => base_expense

/-- Python's `round`: round half to even (banker's rounding). -/
def pyRound (q : ℚ) : ℤ :=
  let f := ⌊q⌋
  let r := q - f
  if r < 1/2 then f
  else if 1/2 < r then f + 1
  else if f % 2 = 0 then f else f + 1

/-- `model.Params`.  Schedules are `(age, value)` pairs, one-time events are
`(age, amount, description)` triples, all ages in fractional years. -/
structure Params where
  age_now : ℚ
  retire_age : ℚ
  pension_start_age : ℚ
  income_schedule : List (ℚ × ℚ)
  spouse_age_now : ℚ
  spouse_retire_age : ℚ
  spouse_pension_start_age : ℚ
  spouse_income_schedule : List (ℚ × ℚ)
  one_time_events : List (ℚ × ℚ × String)
  expense_schedule : List (ℚ × ℚ)
  end_age : ℚ
  r_month : ℚ
  gross_income_month : ℚ
  pension_rate : ℚ
  pension_rate_employer : ℚ
  hishtalmut_rate_employee : ℚ
  hishtalmut_rate_employer : ℚ
  hishtalmut_salary_cap : ℚ
  spouse_gross_income_month : ℚ
  spouse_pension_rate : ℚ
  spouse_pension_rate_employer : ℚ
  spouse_hishtalmut_rate_employee : ℚ
  spouse_hishtalmut_rate_employer : ℚ
  spouse_hishtalmut_salary_cap : ℚ
  spend_month : ℚ
  liquid_now : ℚ
  pension_now : ℚ
  spouse_pension_now : ℚ
  min_assets : ℚ
  mekadem : ℚ
  spouse_mekadem : ℚ
  old_age_pension_month : ℚ
  old_age_pension_start_age : ℚ
  pension_tax_free_amount : ℚ

/-- One row of the month-by-month series (`records.append({...})` in
`model.simulate`). -/
structure MonthRecord where
  month : ℕ
  age1 : ℚ
  age2 : ℚ
  phase : String
  liquid : ℚ
  pension1 : ℚ
  pension2 : ℚ
  salary1_gross : ℚ
  salary1_net : ℚ
  hishtalmut1 : ℚ
  salary2_gross : ℚ
  salary2_net : ℚ
  hishtalmut2 : ℚ
  pension1_income : ℚ
  pension2_income : ℚ
  pension1_income_net : ℚ
  pension2_income_net : ℚ
  one_time_event : ℚ
  total_pension_income : ℚ
  old_age_pension : ℚ
  monthly_expense : ℚ
  liquid_change : ℚ
  person1_working : Bool
  person2_working : Bool
deriving Inhabited

/-- `model.Result`: feasibility verdict, reason, monthly series (the
DataFrame becomes the record list `df`) and summary metrics. -/
structure Result where
  ok : Bool
  reason : String
  df : List MonthRecord
  pension_at_start : ℚ
  pension_income_month : ℚ
  spouse_pension_at_start : ℚ
  spouse_pension_income_month : ℚ
  liquid_end : ℚ
  liquid_at_pension_start : ℚ

/-- The per-run mutable state of `model.simulate`'s month loop. -/
structure SimState where
  liquid : ℚ
  pension1 : ℚ
  pension2 : ℚ
  pension1_income_active : Bool
  pension1_income_month : ℚ
  pension2_income_active : Bool
  pension2_income_month : ℚ
  old_age_pension1_active : Bool
  old_age_pension2_active : Bool
  liquid_at_first_pension_start : ℚ
  first_pension_started : Bool
  min_assets_violated : Bool
  min_assets_violation_reason : String
  applied_events : List Bool
  records : List MonthRecord

/-- Person age after `m` simulated months (`age1 = params.age_now + month / 12`). -/
def monthAge (base : ℚ) (m : ℕ) : ℚ := base + (m : ℚ) / 12

/-- Salary-month outcome for one person: gross, net (after tax and employee
deductions), total hishtalmut inflow and total pension contribution. -/
structure SalaryOut where
  gross : ℚ
  net : ℚ
  hishtalmut : ℚ
  pensionContrib : ℚ

/-- Person 1 salary block of the month loop (zero once `age1 < retire_age` fails). -/
def person1Salary (p : Params) (retire_age : ℚ) (m : ℕ) : SalaryOut :=
  let age1 := monthAge p.age_now m
  if age1 < retire_age then
    let gross := get_income_at_age age1 p.gross_income_month p.income_schedule
    let tax := calculate_monthly_tax_from_gross gross
    let employee_pension := gross * p.pension_rate
    let capped := min gross p.hishtalmut_salary_cap
    let employee_hishtalmut := capped * p.hishtalmut_rate_employee
    { gross := gross,
      net := gross - tax - employee_pension - employee_hishtalmut,
      hishtalmut := employee_hishtalmut + capped * p.hishtalmut_rate_employer,
      pensionContrib := employee_pension + gross * p.pension_rate_employer }
  else
    { gross := 0, net := 0, hishtalmut := 0, pensionContrib := 0 }

/-- Person 2 salary block of the month loop (spouse fields and `age2`). -/
def person2Salary (p : Params) (spouse_retire_age : ℚ) (m : ℕ) : SalaryOut :=
  let age2 := monthAge p.spouse_age_now m
  if age2 < spouse_retire_age then
    let gross := get_income_at_age age2 p.spouse_gross_income_month p.spouse_income_schedule
    let tax := calculate_monthly_tax_from_gross gross
    let employee_pension := gross * p.spouse_pension_rate
    let capped := min gross p.spouse_hishtalmut_salary_cap
    let employee_hishtalmut := capped * p.spouse_hishtalmut_rate_employee
    { gross := gross,
      net := gross - tax - employee_pension - employee_hishtalmut,
      hishtalmut := employee_hishtalmut + capped * p.spouse_hishtalmut_rate_employer,
      pensionContrib := employee_pension + gross * p.spouse_pension_rate_employer }
  else
    { gross := 0, net := 0, hishtalmut := 0, pensionContrib := 0 }

/-- One-time event sweep of the month loop: each event with trigger age
reached and flag still clear fires (its amount is summed) and its flag is
set; every other flag is kept.  Flags are positional, like the Python
`applied_events` index set. -/
def applyOneTimeEvents (age1 : ℚ) : List (ℚ × ℚ × String) → List Bool → ℚ × List Bool
  | [], _ => (0, [])
  | e :: evs, flags =>
    let fl := flags.headD false
    let rest := applyOneTimeEvents age1 evs flags.tail
    if e.1 ≤ age1 ∧ fl = false then (e.2.1 + rest.1, true :: rest.2)
    else (rest.1, fl :: rest.2)

/-- Person 1 pension balance of month `m` right after returns and salary
contributions — the balance "at the instant of activation" that fixes the
monthly payout when the pension activates in this month. -/
def pensionAfterContrib1 (p : Params) (retire_age : ℚ) (m : ℕ) (s : SimState) : ℚ :=
  s.pension1 * (1 + p.r_month) + (person1Salary p retire_age m).pensionContrib

/-- Person 2 analogue of `pensionAfterContrib1`. -/
def pensionAfterContrib2 (p : Params) (spouse_retire_age : ℚ) (m : ℕ) (s : SimState) : ℚ :=
  s.pension2 * (1 + p.r_month) + (person2Salary p spouse_retire_age m).pensionContrib

/-- Liquid assets of month `m` after returns, hishtalmut inflows, net
salaries and one-time events — and before pension payouts, the old-age
benefit and the expense deduction. -/
def liquidAfterEvents (p : Params) (retire_age spouse_retire_age : ℚ) (m : ℕ) (s : SimState) : ℚ :=
  let sal1 := person1Salary p retire_age m
  let sal2 := person2Salary p spouse_retire_age m
  s.liquid * (1 + p.r_month) + sal1.hishtalmut + sal2.hishtalmut + (sal1.net + sal2.net)
    + (applyOneTimeEvents (monthAge p.age_now m) p.one_time_events s.applied_events).1

/-- Net monthly pension income from a gross payout: the per-person tax-free
allowance is applied, the remainder taxed via the tax function. -/
def pensionNetIncome (p : Params) (grossPay : ℚ) : ℚ :=
  grossPay - calculate_monthly_tax_from_gross (max 0 (grossPay - p.pension_tax_free_amount))

/-- Person 1 old-age-benefit flag after this month's activation check. -/
def oldAgeActive1 (p : Params) (m : ℕ) (s : SimState) : Bool :=
  s.old_age_pension1_active || decide (p.old_age_pension_start_age ≤ monthAge p.age_now m)

/-- Person 2 old-age-benefit flag after this month's activation check. -/
def oldAgeActive2 (p : Params) (m : ℕ) (s : SimState) : Bool :=
  s.old_age_pension2_active || decide (p.old_age_pension_start_age ≤ monthAge p.spouse_age_now m)

/-- Combined flat old-age benefit paid this month. -/
def oldAgeTotal (p : Params) (m : ℕ) (s : SimState) : ℚ :=
  (if oldAgeActive1 p m s then p.old_age_pension_month else 0)
    + (if oldAgeActive2 p m s then p.old_age_pension_month else 0)

/-- One month of `model.simulate`'s loop, in the source's order: returns,
salaries and contributions, one-time events, pension-payout activation,
old-age activation, pension drawdown, old-age benefit, expense, floor
check — producing the successor state and the month's record. -/
def monthCalc (p : Params) (retire_age spouse_retire_age : ℚ) (m : ℕ) (s : SimState) :
    SimState × MonthRecord :=
  let age1 := monthAge p.age_now m
  let age2 := monthAge p.spouse_age_now m
  let sal1 := person1Salary p retire_age m
  let sal2 := person2Salary p spouse_retire_age m
  let pension1a := pensionAfterContrib1 p retire_age m s
  let pension2a := pensionAfterContrib2 p spouse_retire_age m s
  let ev := applyOneTimeEvents age1 p.one_time_events s.applied_events
  let liquidEv := liquidAfterEvents p retire_age spouse_retire_age m s
  let activate1 := !s.pension1_income_active && decide (p.pension_start_age ≤ age1)
  let p1active := s.pension1_income_active || activate1
  let p1month := if activate1 then pension1a / p.mekadem else s.pension1_income_month
  let lafps1 := if activate1 && !s.first_pension_started then liquidEv
                else s.liquid_at_first_pension_start
  let first1 := s.first_pension_started || activate1
  let activate2 := !s.pension2_income_active && decide (p.spouse_pension_start_age ≤ age2)
  let p2active := s.pension2_income_active || activate2
  let p2month := if activate2 then pension2a / p.spouse_mekadem else s.pension2_income_month
  let lafps2 := if activate2 && !first1 then liquidEv else lafps1
  let first2 := first1 || activate2
  let totalOldAge := oldAgeTotal p m s
  let pension_net_p1 := if p1active then pensionNetIncome p p1month else 0
  let pension1b := if p1active then pension1a - p1month else pension1a
  let pension_net_p2 := if p2active then pensionNetIncome p p2month else 0
  let pension2b := if p2active then pension2a - p2month else pension2a
  let totalPensionNet := pension_net_p1 + pension_net_p2
  let expense := get_expense_at_age age1 p.spend_month p.expense_schedule
  let liquidFinal := liquidEv + totalPensionNet + totalOldAge - expense
  let hitFloor := !s.min_assets_violated && decide (liquidFinal < p.min_assets)
  let w1 := decide (age1 < retire_age)
  let w2 := decide (age2 < spouse_retire_age)
  let phase := if w1 && w2 then "both_working"
    else if w1 || w2 then "one_working"
    else if !p1active && !p2active then "bridge"
    else "post_pension"
  let entry : MonthRecord :=
    { month := m, age1 := age1, age2 := age2, phase := phase,
      liquid := liquidFinal, pension1 := pension1b, pension2 := pension2b,
      salary1_gross := sal1.gross, salary1_net := sal1.net, hishtalmut1 := sal1.hishtalmut,
      salary2_gross := sal2.gross, salary2_net := sal2.net, hishtalmut2 := sal2.hishtalmut,
      pension1_income := if p1active then p1month else 0,
      pension2_income := if p2active then p2month else 0,
      pension1_income_net := pension_net_p1, pension2_income_net := pension_net_p2,
      one_time_event := ev.1, total_pension_income := totalPensionNet,
      old_age_pension := totalOldAge, monthly_expense := expense,
      liquid_change := (sal1.net + sal2.net) + totalPensionNet + totalOldAge
        + sal1.hishtalmut + sal2.hishtalmut + ev.1 - expense,
      person1_working := w1, person2_working := w2 }
  ({ liquid := liquidFinal, pension1 := pension1b, pension2 := pension2b,
     pension1_income_active := p1active, pension1_income_month := p1month,
     pension2_income_active := p2active, pension2_income_month := p2month,
     old_age_pension1_active := oldAgeActive1 p m s,
     old_age_pension2_active := oldAgeActive2 p m s,
     liquid_at_first_pension_start := lafps2, first_pension_started := first2,
     min_assets_violated := s.min_assets_violated || hitFloor,
     min_assets_violation_reason :=
       if hitFloor then "Assets fell below minimum during simulation"
       else s.min_assets_violation_reason,
     applied_events := ev.2, records := s.records }, entry)

/-- The record built for month `m` by the loop body. -/
def monthEntry (p : Params) (retire_age spouse_retire_age : ℚ) (m : ℕ) (s : SimState) :
    MonthRecord :=
  (monthCalc p retire_age spouse_retire_age m s).2

/-- One full loop iteration: run the month and append its record. -/
def simStep (p : Params) (retire_age spouse_retire_age : ℚ) (m : ℕ) (s : SimState) : SimState :=
  let c := monthCalc p retire_age spouse_retire_age m s
  { c.1 with records := s.records ++ [c.2] }

/-- The state initialisation of `model.simulate` before the month loop. -/
def initState (p : Params) : SimState :=
  { liquid := p.liquid_now, pension1 := p.pension_now, pension2 := p.spouse_pension_now,
    pension1_income_active := false, pension1_income_month := 0,
    pension2_income_active := false, pension2_income_month := 0,
    old_age_pension1_active := false, old_age_pension2_active := false,
    liquid_at_first_pension_start := 0, first_pension_started := false,
    min_assets_violated := false, min_assets_violation_reason := "",
    applied_events := List.replicate p.one_time_events.length false, records := [] }

/-- State after `n` simulated months. -/
def simStateAfter (p : Params) (retire_age spouse_retire_age : ℚ) : ℕ → SimState
  | 0 => initState p
  | n + 1 => simStep p retire_age spouse_retire_age n (simStateAfter p retire_age spouse_retire_age n)

/-- `older_age_now = max(params.age_now, params.spouse_age_now)`. -/
def older_age_now (p : Params) : ℚ := max p.age_now p.spouse_age_now

/-- `total_months = round((params.end_age - older_age_now) * 12)`. -/
def total_months (p : Params) : ℤ := pyRound ((p.end_age - older_age_now p) * 12)

/-- Person 1 income-schedule validation loop of `model.simulate` (also used,
with spouse fields, for person 2): first offending entry wins. -/
def incomeScheduleIssue (who : String) (age_now retire_age : ℚ) :
    List (ℚ × ℚ) → Option String
  | [] => none
  | e :: rest =>
    if e.1 < age_now then some (who ++ " income schedule age cannot be before current age")
    else if retire_age ≤ e.1 then
      some (who ++ " income schedule age cannot be at or after retirement age")
    else if e.2 < 0 then some (who ++ " income schedule income cannot be negative")
    else incomeScheduleIssue who age_now retire_age rest

/-- One-time-event validation loop of `model.simulate`. -/
def oneTimeEventIssue (age_now end_age : ℚ) : List (ℚ × ℚ × String) → Option String
  | [] => none
  | e :: rest =>
    if e.1 < age_now then some "One-time event cannot be before current age"
    else if end_age < e.1 then some "One-time event cannot be after end age"
    else oneTimeEventIssue age_now end_age rest

/-- Expense-schedule validation loop of `model.simulate`. -/
def expenseScheduleIssue (age_now end_age : ℚ) : List (ℚ × ℚ) → Option String
  | [] => none
  | e :: rest =>
    if e.1 < age_now then some "Expense schedule age cannot be before current age"
    else if end_age < e.1 then some "Expense schedule age cannot be after end age"
    else if e.2 < 0 then some "Expense schedule expense cannot be negative"
    else expenseScheduleIssue age_now end_age rest

/-- The input-validation prefix of `model.simulate`, in source order:
the first violated precondition produces its reason. -/
def validate (retire_age : ℚ) (p : Params) (spouse_retire_age : ℚ) : Option String :=
  if retire_age < p.age_now then
    some "Person 1 retirement age cannot be before current age"
  else if spouse_retire_age < p.spouse_age_now then
    some "Person 2 retirement age cannot be before current age"
  else if p.pension_start_age < retire_age then
    some "Person 1 retirement age cannot be after pension start age"
  else if p.spouse_pension_start_age < spouse_retire_age then
    some "Person 2 retirement age cannot be after pension start age"
  else match incomeScheduleIssue "Person 1" p.age_now retire_age p.income_schedule with
  | some r => some r
  | none =>
    match incomeScheduleIssue "Person 2" p.spouse_age_now spouse_retire_age
        p.spouse_income_schedule with
    | some r => some r
    | none =>
      match oneTimeEventIssue p.age_now p.end_age p.one_time_events with
      | some r => some r
      | none => expenseScheduleIssue p.age_now p.end_age p.expense_schedule

/-- The post-loop verdict of `model.simulate`: infeasible on a recorded
mid-run floor violation, else infeasible when the final liquid balance is
below the floor, else feasible.  On the feasible branch the
pension-at-start summaries are zeroed for a never-activated payout; on the
infeasible branches they carry the raw final balances. -/
def buildResult (p : Params) (s : SimState) : Result :=
  if s.min_assets_violated then
      { ok := false, reason := s.min_assets_violation_reason, df := s.records,
        pension_at_start := s.pension1, pension_income_month := s.pension1_income_month,
        spouse_pension_at_start := s.pension2,
        spouse_pension_income_month := s.pension2_income_month,
        liquid_end := s.liquid, liquid_at_pension_start := s.liquid_at_first_pension_start }
    else if s.liquid < p.min_assets then
      { ok := false, reason := "Assets below minimum at end age", df := s.records,
        pension_at_start := s.pension1, pension_income_month := s.pension1_income_month,
        spouse_pension_at_start := s.pension2,
        spouse_pension_income_month := s.pension2_income_month,
        liquid_end := s.liquid, liquid_at_pension_start := s.liquid_at_first_pension_start }
    else
      { ok := true, reason := "Feasible retirement scenario for both people", df := s.records,
        pension_at_start := if s.pension1_income_active then s.pension1 else 0,
        pension_income_month := s.pension1_income_month,
        spouse_pension_at_start := if s.pension2_income_active then s.pension2 else 0,
        spouse_pension_income_month := s.pension2_income_month,
        liquid_end := s.liquid, liquid_at_pension_start := s.liquid_at_first_pension_start }

/-- `model.simulate`: validate, run the month loop over the full horizon,
then produce the verdict.  `spouseRetire = none` models the Python default
`spouse_retire_age=None` (which falls back to `params.spouse_retire_age`). -/
def simulate (retire_age : ℚ) (p : Params) (spouseRetire : Option ℚ) : Result :=
  let sra := spouseRetire.getD p.spouse_retire_age
  match validate retire_age p sra with
  | some reason =>
    { ok := false, reason := reason, df := [], pension_at_start := 0,
      pension_income_month := 0, spouse_pension_at_start := 0,
      spouse_pension_income_month := 0, liquid_end := 0, liquid_at_pension_start := 0 }
  | none =>
    buildResult p (simStateAfter p retire_age sra (total_months p).toNat)

/-- Lower scan bound of `search.find_earliest_retirement`: the caller's
`min_age` (default `age_now`) clamped up to `age_now`. -/
def retireLo (p : Params) (minAge : Option ℚ) : ℚ :=
  let a := minAge.getD p.age_now
  if a < p.age_now then p.age_now else a

/-- Upper scan bound of `search.find_earliest_retirement`: the caller's
`max_age` (default `pension_start_age`) clamped down to `pension_start_age`. -/
def retireHi (p : Params) (maxAge : Option ℚ) : ℚ :=
  let a := maxAge.getD p.pension_start_age
  if p.pension_start_age < a then p.pension_start_age else a

/-- Candidate retirement age for month offset `m`: `min_age + m/12`, capped
at `max_age` (the "don't exceed max_age" clamp of the scan loop). -/
def clampAge (minA maxA : ℚ) (m : ℕ) : ℚ :=
  if maxA < minA + (m : ℚ) / 12 then maxA else minA + (m : ℚ) / 12

/-- The scan loop of `search.find_earliest_retirement` over the month
offsets `m`: candidate age `min_age + m/12` clamped at `max_age`; return the
first feasible candidate with its result, stop after a candidate that
reached `max_age`. -/
def scanRetire (p : Params) (sra minA maxA : ℚ) : List ℕ → Option ℚ × Option Result
  | [] => (none, none)
  | m :: rest =>
    let ra := clampAge minA maxA m
    let r := simulate ra p (some sra)
    if r.ok then (some ra, some r)
    else if maxA ≤ ra then (none, none)
    else scanRetire p sra minA maxA rest

/-- The month offsets scanned by `search.find_earliest_retirement`:
Python `range(0, total_months + 1, step_months)`. -/
def scanOffsets (T step_months : ℕ) : List ℕ :=
  List.range' 0 (T / step_months + 1) step_months

/-- The candidate retirement ages actually scanned (offsets mapped through
the clamp). -/
def retireCandidates (minA maxA : ℚ) (T step_months : ℕ) : List ℚ :=
  (scanOffsets T step_months).map (clampAge minA maxA)

/-- `search.find_earliest_retirement`: clamp the bounds, bail out on an
empty range, otherwise scan candidate ages in `step_months`-month steps. -/
def find_earliest_retirement (p : Params) (minAge maxAge spouseRetire : Option ℚ)
    (step_months : ℕ) : Option ℚ × Option Result :=
  let sra := spouseRetire.getD p.spouse_retire_age
  let minA := retireLo p minAge
  let maxA := retireHi p maxAge
  if maxA < minA then (none, none)
  else
    scanRetire p sra minA maxA
      (scanOffsets (pyRound ((maxA - minA) * 12)).toNat step_months)

/-- The clone-with-overridden-spending of `search.find_max_monthly_expense`
(the source copies every `Params` field and substitutes `spend_month`). -/
def cloneWithSpend (p : Params) (spend : ℚ) : Params := { p with spend_month := spend }

/-- The acceptance test of an iteration of `search.find_max_monthly_expense`:
feasible and end assets at least `target - tolerance`. -/
def maxExpenseCond (target tolerance : ℚ) (r : Result) : Bool :=
  r.ok && decide (target - tolerance ≤ r.liquid_end)

/-- Upper bisection bound of `search.find_max_monthly_expense`:
`(liquid_now*2 + combined gross over the horizon) / total_months`,
or `1000000` for an empty horizon. -/
def bisectHigh (p : Params) : ℚ :=
  let N := total_months p
  if 0 < N then
    (p.liquid_now * 2 + (p.gross_income_month + p.spouse_gross_income_month) * (N : ℚ)) / (N : ℚ)
  else 1000000

/-- The bisection loop of `search.find_max_monthly_expense`: at most `fuel`
iterations; each simulates the midpoint spending, narrows the bracket and
keeps the last midpoint that passed `maxExpenseCond`; stops early when the
bracket width drops below a tenth of the tolerance. -/
def bisectLoop (p : Params) (ra sra target tolerance : ℚ) :
    ℕ → ℚ → ℚ → Option (ℚ × Result) → Option (ℚ × Result)
  | 0, _, _, best => best
  | fuel + 1, low, high, best =>
    let mid := (low + high) / 2
    let r := simulate ra (cloneWithSpend p mid) (some sra)
    let hit := maxExpenseCond target tolerance r
    let low2 := if hit then mid else low
    let high2 := if hit then high else mid
    let best2 := if hit then some (mid, r) else best
    if high2 - low2 < tolerance / 10 then best2
    else bisectLoop p ra sra target tolerance fuel low2 high2 best2

/-- The sequence of `(midpoint, simulation result)` pairs evaluated by
`bisectLoop` from the same start, for stating which midpoints were tried. -/
def bisectTrace (p : Params) (ra sra target tolerance : ℚ) : ℕ → ℚ → ℚ → List (ℚ × Result)
  | 0, _, _ => []
  | fuel + 1, low, high =>
    let mid := (low + high) / 2
    let r := simulate ra (cloneWithSpend p mid) (some sra)
    let hit := maxExpenseCond target tolerance r
    let low2 := if hit then mid else low
    let high2 := if hit then high else mid
    (mid, r) ::
      (if high2 - low2 < tolerance / 10 then []
       else bisectTrace p ra sra target tolerance fuel low2 high2)

/-- `search.find_max_monthly_expense`: bisection over the monthly expense,
followed by the source's re-verification of the best candidate. -/
def find_max_monthly_expense (p : Params) (target_end_assets : ℚ)
    (retireOpt spouseRetireOpt : Option ℚ) (tolerance : ℚ) (max_iterations : ℕ) :
    Option ℚ × Option Result :=
  let ra := retireOpt.getD p.retire_age
  let sra := spouseRetireOpt.getD p.spouse_retire_age
  match bisectLoop p ra sra target_end_assets tolerance max_iterations 0 (bisectHigh p) none with
  | some (spend, r) =>
    if maxExpenseCond target_end_assets tolerance r then (some spend, some r)
    else (none, none)
  | none => (none, none)

/-- The two resolvers of `model.py` have byte-identical lookup logic. -/
theorem get_expense_eq_get_income : get_expense_at_age = get_income_at_age := rfl

/-- In a list sorted ascending by effective age, the last element has the
largest effective age. -/
theorem pairwise_le_getLast :
    ∀ (l : List (ℚ × ℚ)), List.Pairwise (fun x y : ℚ × ℚ => x.1 ≤ y.1) l →
      ∀ (h : l ≠ []) (x : ℚ × ℚ), x ∈ l → x.1 ≤ (l.getLast h).1 := by
  intro l
  induction l with
  | nil => intro _ h; exact absurd rfl h
  | cons a t ih =>
    intro hs h x hx
    cases t with
    | nil =>
      rcases List.mem_singleton.mp hx with rfl
      exact le_refl _
    | cons b t2 =>
      rw [List.getLast_cons (List.cons_ne_nil b t2)]
      rcases List.mem_cons.mp hx with rfl | hx2
      · exact le_trans
          (List.rel_of_pairwise_cons hs (List.getLast_mem (List.cons_ne_nil b t2)))
          (le_refl _)
      · exact ih (List.Pairwise.of_cons hs) (List.cons_ne_nil b t2) x hx2

/-- Resolver lookup on a sorted schedule: base value when no entry's age is
at or below the query, otherwise the value of the (maximal-age) applicable
entry. -/
theorem get_income_at_age_sorted (age base : ℚ) (sch : List (ℚ × ℚ))
    (hs : List.Pairwise (fun x y : ℚ × ℚ => x.1 ≤ y.1) sch) :
    ((∀ e ∈ sch, age < e.1) → get_income_at_age age base sch = base) ∧
    (∀ e₀ ∈ sch, e₀.1 ≤ age →
      ∃ e ∈ sch, e.1 ≤ age ∧ (∀ f ∈ sch, f.1 ≤ age → f.1 ≤ e.1) ∧
        get_income_at_age age base sch = e.2) := by
  cases sch with
  | nil => exact ⟨fun _ => rfl, fun e₀ he₀ => absurd he₀ (List.not_mem_nil e₀)⟩
  | cons a t =>
    constructor
    · intro hall
      have hf : (a :: t).filter (fun e => decide (e.1 ≤ age)) = [] := by
        rw [List.filter_eq_nil_iff]
        intro x hx
        simpa using not_le.mpr (hall x hx)
      simp [get_income_at_age, hf]
    · intro e₀ he₀ hle
      have hmem : e₀ ∈ (a :: t).filter (fun e => decide (e.1 ≤ age)) :=
        List.mem_filter.mpr ⟨he₀, by simpa using hle⟩
      have hne : (a :: t).filter (fun e => decide (e.1 ≤ age)) ≠ [] :=
        List.ne_nil_of_mem hmem
      have hsF : List.Pairwise (fun x y : ℚ × ℚ => x.1 ≤ y.1)
          ((a :: t).filter (fun e => decide (e.1 ≤ age))) :=
        hs.sublist (List.filter_sublist _)
      refine ⟨((a :: t).filter (fun e => decide (e.1 ≤ age))).getLast hne,
        List.mem_of_mem_filter (List.getLast_mem hne), ?_, ?_, ?_⟩
      · simpa using (List.mem_filter.mp (List.getLast_mem hne)).2
      · intro f hf hfle
        exact pairwise_le_getLast _ hsF hne f (List.mem_filter.mpr ⟨hf, by simpa using hfle⟩)
      · show (match ((a :: t).filter (fun e => decide (e.1 ≤ age))).getLast? with
            | some e => e.2
            | none => base) = _
        rw [List.getLast?_eq_getLast_of_ne_nil hne]

/-- C3: the schedule resolvers return the base value on an empty or absent
schedule; on a single-entry schedule they return the base below the entry's
age and the entry's value from it on; and on a schedule sorted ascending by
effective age they return the value of the entry with the largest effective
age at or below the query age, or the base when no entry qualifies.  Both
`get_income_at_age` and `get_expense_at_age` are covered. -/
theorem claim3_schedule_resolver :
    (∀ age base : ℚ, get_income_at_age age base [] = base
      ∧ get_expense_at_age age base [] = base) ∧
    (∀ age base a1 v1 : ℚ,
      get_income_at_age age base [(a1, v1)] = (if age < a1 then base else v1)
      ∧ get_expense_at_age age base [(a1, v1)] = (if age < a1 then base else v1)) ∧
    (∀ (age base : ℚ) (sch : List (ℚ × ℚ)),
      List.Pairwise (fun x y : ℚ × ℚ => x.1 ≤ y.1) sch →
      ((∀ e ∈ sch, age < e.1) → get_income_at_age age base sch = base
        ∧ get_expense_at_age age base sch = base) ∧
      (∀ e₀ ∈ sch, e₀.1 ≤ age →
        ∃ e ∈ sch, e.1 ≤ age ∧ (∀ f ∈ sch, f.1 ≤ age → f.1 ≤ e.1) ∧
          get_income_at_age age base sch = e.2
          ∧ get_expense_at_age age base sch = e.2)) := by
  refine ⟨fun age base => ⟨rfl, rfl⟩, fun age base a1 v1 => ?_, fun age base sch hs => ?_⟩
  · rw [get_expense_eq_get_income]
    have : get_income_at_age age base [(a1, v1)] = (if age < a1 then base else v1) := by
      by_cases h : a1 ≤ age
      · simp [get_income_at_age, h, not_lt.mpr h]
      · simp [get_income_at_age, h, lt_of_not_ge h]
    exact ⟨this, this⟩
  · rw [get_expense_eq_get_income]
    rcases get_income_at_age_sorted age base sch hs with ⟨h1, h2⟩
    refine ⟨fun hall => ⟨h1 hall, h1 hall⟩, fun e₀ he₀ hle => ?_⟩
    rcases h2 e₀ he₀ hle with ⟨e, he, hea, hmax, hval⟩
    exact ⟨e, he, hea, hmax, hval, hval⟩

/-- Witness for C3 on concrete data: schedule `[(40, 100), (50, 200)]`
queried at age 45 yields 100 from the entry at 40. -/
theorem claim3_witness :
    ∃ e ∈ ([(40, 100), (50, 200)] : List (ℚ × ℚ)), e.1 ≤ 45
      ∧ (∀ f ∈ ([(40, 100), (50, 200)] : List (ℚ × ℚ)), f.1 ≤ 45 → f.1 ≤ e.1)
      ∧ get_income_at_age 45 7 [(40, 100), (50, 200)] = e.2
      ∧ get_expense_at_age 45 7 [(40, 100), (50, 200)] = e.2 :=
  (claim3_schedule_resolver.2.2 45 7 [(40, 100), (50, 200)]
    (by norm_num)).2 (40, 100) (by norm_num) (by norm_num)

/-- Each loop iteration appends exactly the month's record. -/
theorem simStep_records (p : Params) (ra sra : ℚ) (m : ℕ) (s : SimState) :
    (simStep p ra sra m s).records = s.records ++ [monthEntry p ra sra m s] := rfl

/-- The recorded `liquid` of a month is the state's liquid after that
month's expense deduction. -/
theorem monthEntry_liquid (p : Params) (ra sra : ℚ) (m : ℕ) (s : SimState) :
    (monthEntry p ra sra m s).liquid = (simStep p ra sra m s).liquid := rfl

/-- The floor flag after a month is the old flag or-ed with this month's
(strict) post-expense floor comparison. -/
theorem simStep_violated (p : Params) (ra sra : ℚ) (m : ℕ) (s : SimState) :
    (simStep p ra sra m s).min_assets_violated
      = (s.min_assets_violated
          || decide ((monthEntry p ra sra m s).liquid < p.min_assets)) := by
  have h : (simStep p ra sra m s).min_assets_violated
      = (s.min_assets_violated
          || (!s.min_assets_violated
              && decide ((monthEntry p ra sra m s).liquid < p.min_assets))) := rfl
  rw [h]
  cases s.min_assets_violated <;> simp

/-- The series after `n` months is exactly the months' records in order. -/
theorem simStateAfter_records (p : Params) (ra sra : ℚ) (n : ℕ) :
    (simStateAfter p ra sra n).records
      = (List.range n).map (fun m => monthEntry p ra sra m (simStateAfter p ra sra m)) := by
  induction n with
  | zero => rfl
  | succ k ih =>
    rw [show simStateAfter p ra sra (k + 1)
          = simStep p ra sra k (simStateAfter p ra sra k) from rfl,
      simStep_records, ih, List.range_succ, List.map_append]
    rfl

/-- The series carries one record per simulated month. -/
theorem simStateAfter_records_length (p : Params) (ra sra : ℚ) (n : ℕ) :
    (simStateAfter p ra sra n).records.length = n := by
  rw [simStateAfter_records]; simp

/-- The floor flag is set exactly when some recorded month's post-expense
liquid is strictly below the floor. -/
theorem simStateAfter_violated_iff (p : Params) (ra sra : ℚ) (n : ℕ) :
    (simStateAfter p ra sra n).min_assets_violated = true
      ↔ ∃ r ∈ (simStateAfter p ra sra n).records, r.liquid < p.min_assets := by
  induction n with
  | zero => simp [simStateAfter, initState]
  | succ k ih =>
    rw [show simStateAfter p ra sra (k + 1)
          = simStep p ra sra k (simStateAfter p ra sra k) from rfl,
      simStep_violated, simStep_records]
    simp only [Bool.or_eq_true, decide_eq_true_eq, List.mem_append, List.mem_singleton]
    constructor
    · rintro (h | h)
      · rcases ih.mp h with ⟨r, hr, hlt⟩
        exact ⟨r, Or.inl hr, hlt⟩
      · exact ⟨monthEntry p ra sra k (simStateAfter p ra sra k), Or.inr rfl, h⟩
    · rintro ⟨r, hr | hr, hlt⟩
      · exact Or.inl (ih.mpr ⟨r, hr, hlt⟩)
      · subst hr; exact Or.inr hlt

/-- Once input validation passes, `simulate` is the verdict of the full run. -/
theorem simulate_validated (retire_age : ℚ) (p : Params) (spouseRetire : Option ℚ)
    (hv : validate retire_age p (spouseRetire.getD p.spouse_retire_age) = none) :
    simulate retire_age p spouseRetire
      = buildResult p (simStateAfter p retire_age (spouseRetire.getD p.spouse_retire_age)
          (total_months p).toNat) := by
  simp only [simulate]
  rw [hv]

/-- The verdict always carries the run's full series. -/
theorem buildResult_df (p : Params) (s : SimState) : (buildResult p s).df = s.records := by
  unfold buildResult; split_ifs <;> rfl

/-- The verdict's `liquid_end` is the final liquid balance. -/
theorem buildResult_liquid_end (p : Params) (s : SimState) :
    (buildResult p s).liquid_end = s.liquid := by
  unfold buildResult; split_ifs <;> rfl

/-- The verdict is infeasible exactly on a mid-run floor violation or a
final balance strictly below the floor. -/
theorem buildResult_ok_false_iff (p : Params) (s : SimState) :
    (buildResult p s).ok = false
      ↔ (s.min_assets_violated = true ∨ s.liquid < p.min_assets) := by
  unfold buildResult
  by_cases h1 : s.min_assets_violated <;> by_cases h2 : s.liquid < p.min_assets <;>
    simp [h1, h2]

/-- C1: for every parameter set that passes input validation, the result is
infeasible exactly when some recorded month's post-expense liquid fell
strictly below the floor or the final liquid balance is strictly below the
floor; and in every case the result carries the full series, of length
`round((end_age - max(age_now, spouse_age_now)) * 12)` (as a month count,
i.e. clamped at zero). -/
theorem claim1_verdict_and_series (retire_age : ℚ) (p : Params) (spouseRetire : Option ℚ)
    (hv : validate retire_age p (spouseRetire.getD p.spouse_retire_age) = none) :
    ((simulate retire_age p spouseRetire).ok = false
      ↔ ((∃ r ∈ (simulate retire_age p spouseRetire).df, r.liquid < p.min_assets)
          ∨ (simulate retire_age p spouseRetire).liquid_end < p.min_assets)) ∧
    (simulate retire_age p spouseRetire).df.length
      = (pyRound ((p.end_age - max p.age_now p.spouse_age_now) * 12)).toNat := by
  rw [simulate_validated retire_age p spouseRetire hv, buildResult_df, buildResult_liquid_end,
    buildResult_ok_false_iff, simStateAfter_records_length]
  refine ⟨?_, rfl⟩
  rw [simStateAfter_violated_iff]

/-- Witness parameter set: a validated, zero-return, zero-income run over a
six-month horizon whose liquid assets reach the floor exactly at the end. -/
def wparamsA : Params :=
  { age_now := 60, retire_age := 60, pension_start_age := 100, income_schedule := [],
    spouse_age_now := 60, spouse_retire_age := 60, spouse_pension_start_age := 100,
    spouse_income_schedule := [], one_time_events := [], expense_schedule := [],
    end_age := 121/2, r_month := 0, gross_income_month := 0, pension_rate := 6/100,
    pension_rate_employer := 125/1000, hishtalmut_rate_employee := 25/1000,
    hishtalmut_rate_employer := 75/1000, hishtalmut_salary_cap := 15712,
    spouse_gross_income_month := 0, spouse_pension_rate := 6/100,
    spouse_pension_rate_employer := 125/1000, spouse_hishtalmut_rate_employee := 25/1000,
    spouse_hishtalmut_rate_employer := 75/1000, spouse_hishtalmut_salary_cap := 15712,
    spend_month := 100, liquid_now := 1000, pension_now := 400000, spouse_pension_now := 0,
    min_assets := 400, mekadem := 230, spouse_mekadem := 230, old_age_pension_month := 2000,
    old_age_pension_start_age := 100, pension_tax_free_amount := 5000 }

/-- Witness for C1 at `wparamsA`. -/
theorem claim1_witness :
    ((simulate 60 wparamsA (some 60)).ok = false
      ↔ ((∃ r ∈ (simulate 60 wparamsA (some 60)).df, r.liquid < wparamsA.min_assets)
          ∨ (simulate 60 wparamsA (some 60)).liquid_end < wparamsA.min_assets)) ∧
    (simulate 60 wparamsA (some 60)).df.length
      = (pyRound ((wparamsA.end_age - max wparamsA.age_now wparamsA.spouse_age_now) * 12)).toNat :=
  claim1_verdict_and_series 60 wparamsA (some 60)
    (by norm_num [validate, wparamsA, incomeScheduleIssue, oneTimeEventIssue,
      expenseScheduleIssue])

/-- C9: the floor comparisons are strict on both checks — a validated run
whose recorded post-expense liquid never goes strictly below the floor and
whose final balance is not strictly below the floor is feasible (touching
the floor exactly is allowed). -/
theorem claim9_strict_floor (retire_age : ℚ) (p : Params) (spouseRetire : Option ℚ)
    (hv : validate retire_age p (spouseRetire.getD p.spouse_retire_age) = none)
    (hall : ∀ r ∈ (simulate retire_age p spouseRetire).df, p.min_assets ≤ r.liquid)
    (hend : p.min_assets ≤ (simulate retire_age p spouseRetire).liquid_end) :
    (simulate retire_age p spouseRetire).ok = true := by
  cases hok : (simulate retire_age p spouseRetire).ok with
  | true => rfl
  | false =>
    rcases (claim1_verdict_and_series retire_age p spouseRetire hv).1.mp hok with h | h
    · rcases h with ⟨r, hr, hlt⟩
      exact absurd (hall r hr) (not_le.mpr hlt)
    · exact absurd hend (not_le.mpr h)

set_option maxRecDepth 100000 in
set_option maxHeartbeats 2000000 in
/-- Witness for C9 at `wparamsA`: the run descends from 1000 to exactly the
floor 400 at the horizon, touching it without going below, and is feasible. -/
theorem claim9_witness : (simulate 60 wparamsA (some 60)).ok = true :=
  claim9_strict_floor 60 wparamsA (some 60)
    (by norm_num [validate, wparamsA, incomeScheduleIssue, oneTimeEventIssue,
      expenseScheduleIssue])
    (by norm_num [simulate, validate, wparamsA, incomeScheduleIssue, oneTimeEventIssue,
      expenseScheduleIssue, buildResult, simStateAfter, simStep, monthCalc, monthAge,
      person1Salary, person2Salary, applyOneTimeEvents, pensionAfterContrib1,
      pensionAfterContrib2, liquidAfterEvents, pensionNetIncome, oldAgeActive1, oldAgeActive2,
      oldAgeTotal, get_income_at_age, get_expense_at_age, calculate_monthly_tax_from_gross,
      calculate_income_tax, calculate_national_insurance, bracketScan, NATIONAL_INSURANCE,
      ISRAELI_TAX_BRACKETS, initState, total_months, older_age_now, pyRound, monthEntry])
    (by norm_num [simulate, validate, wparamsA, incomeScheduleIssue, oneTimeEventIssue,
      expenseScheduleIssue, buildResult, simStateAfter, simStep, monthCalc, monthAge,
      person1Salary, person2Salary, applyOneTimeEvents, pensionAfterContrib1,
      pensionAfterContrib2, liquidAfterEvents, pensionNetIncome, oldAgeActive1, oldAgeActive2,
      oldAgeTotal, get_income_at_age, get_expense_at_age, calculate_monthly_tax_from_gross,
      calculate_income_tax, calculate_national_insurance, bracketScan, NATIONAL_INSURANCE,
      ISRAELI_TAX_BRACKETS, initState, total_months, older_age_now, pyRound, monthEntry])

/-- The disjunction of all preconditions checked by `model.simulate` before
the month loop (C2's violation domain). -/
def ValidationIssue (retire_age : ℚ) (p : Params) (sra : ℚ) : Prop :=
  retire_age < p.age_now ∨ sra < p.spouse_age_now
    ∨ p.pension_start_age < retire_age ∨ p.spouse_pension_start_age < sra
    ∨ (∃ e ∈ p.income_schedule, e.1 < p.age_now ∨ retire_age ≤ e.1 ∨ e.2 < 0)
    ∨ (∃ e ∈ p.spouse_income_schedule, e.1 < p.spouse_age_now ∨ sra ≤ e.1 ∨ e.2 < 0)
    ∨ (∃ e ∈ p.one_time_events, e.1 < p.age_now ∨ p.end_age < e.1)
    ∨ (∃ e ∈ p.expense_schedule, e.1 < p.age_now ∨ p.end_age < e.1 ∨ e.2 < 0)

/-- A string with a nonempty suffix is nonempty. -/
theorem append_ne_empty (a b : String) (hb : 0 < b.length) : a ++ b ≠ "" := by
  intro h
  have hl := congrArg String.length h
  rw [String.length_append, String.length_empty] at hl
  omega

/-- A bad income-schedule entry makes the schedule check fire. -/
theorem incomeScheduleIssue_some_of (who : String) (a ra : ℚ) (l : List (ℚ × ℚ))
    (h : ∃ e ∈ l, e.1 < a ∨ ra ≤ e.1 ∨ e.2 < 0) :
    incomeScheduleIssue who a ra l ≠ none := by
  induction l with
  | nil => rcases h with ⟨e, he, _⟩; exact absurd he (List.not_mem_nil e)
  | cons x t ih =>
    rcases h with ⟨e, he, hbad⟩
    simp only [incomeScheduleIssue]
    split_ifs with h1 h2 h3
    · simp
    · simp
    · simp
    · apply ih
      rcases List.mem_cons.mp he with rfl | het
      · rcases hbad with hb | hb | hb
        · exact absurd hb h1
        · exact absurd hb h2
        · exact absurd hb h3
      · exact ⟨e, het, hbad⟩

/-- A bad one-time event makes the event check fire. -/
theorem oneTimeEventIssue_some_of (a z : ℚ) (l : List (ℚ × ℚ × String))
    (h : ∃ e ∈ l, e.1 < a ∨ z < e.1) : oneTimeEventIssue a z l ≠ none := by
  induction l with
  | nil => rcases h with ⟨e, he, _⟩; exact absurd he (List.not_mem_nil e)
  | cons x t ih =>
    rcases h with ⟨e, he, hbad⟩
    simp only [oneTimeEventIssue]
    split_ifs with h1 h2
    · simp
    · simp
    · apply ih
      rcases List.mem_cons.mp he with rfl | het
      · rcases hbad with hb | hb
        · exact absurd hb h1
        · exact absurd hb h2
      · exact ⟨e, het, hbad⟩

/-- A bad expense-schedule entry makes the expense check fire. -/
theorem expenseScheduleIssue_some_of (a z : ℚ) (l : List (ℚ × ℚ))
    (h : ∃ e ∈ l, e.1 < a ∨ z < e.1 ∨ e.2 < 0) : expenseScheduleIssue a z l ≠ none := by
  induction l with
  | nil => rcases h with ⟨e, he, _⟩; exact absurd he (List.not_mem_nil e)
  | cons x t ih =>
    rcases h with ⟨e, he, hbad⟩
    simp only [expenseScheduleIssue]
    split_ifs with h1 h2 h3
    · simp
    · simp
    · simp
    · apply ih
      rcases List.mem_cons.mp he with rfl | het
      · rcases hbad with hb | hb | hb
        · exact absurd hb h1
        · exact absurd hb h2
        · exact absurd hb h3
      · exact ⟨e, het, hbad⟩

/-- Any reason produced by the income-schedule check is nonempty. -/
theorem incomeScheduleIssue_reason_ne (who : String) (a ra : ℚ) (l : List (ℚ × ℚ))
    (r : String) (h : incomeScheduleIssue who a ra l = some r) : r ≠ "" := by
  induction l with
  | nil => exact absurd h (by simp [incomeScheduleIssue])
  | cons x t ih =>
    simp only [incomeScheduleIssue] at h
    split_ifs at h with h1 h2 h3
    · cases h; exact append_ne_empty _ _ (by decide)
    · cases h; exact append_ne_empty _ _ (by decide)
    · cases h; exact append_ne_empty _ _ (by decide)
    · exact ih h

/-- Any reason produced by the event check is nonempty. -/
theorem oneTimeEventIssue_reason_ne (a z : ℚ) (l : List (ℚ × ℚ × String))
    (r : String) (h : oneTimeEventIssue a z l = some r) : r ≠ "" := by
  induction l with
  | nil => exact absurd h (by simp [oneTimeEventIssue])
  | cons x t ih =>
    simp only [oneTimeEventIssue] at h
    split_ifs at h with h1 h2
    · cases h; decide
    · cases h; decide
    · exact ih h

/-- Any reason produced by the expense check is nonempty. -/
theorem expenseScheduleIssue_reason_ne (a z : ℚ) (l : List (ℚ × ℚ))
    (r : String) (h : expenseScheduleIssue a z l = some r) : r ≠ "" := by
  induction l with
  | nil => exact absurd h (by simp [expenseScheduleIssue])
  | cons x t ih =>
    simp only [expenseScheduleIssue] at h
    split_ifs at h with h1 h2 h3
    · cases h; decide
    · cases h; decide
    · cases h; decide
    · exact ih h

/-- A violated precondition always produces a validation reason. -/
theorem validate_some_of_issue (retire_age : ℚ) (p : Params) (sra : ℚ)
    (h : ValidationIssue retire_age p sra) : validate retire_age p sra ≠ none := by
  unfold validate
  split_ifs with h1 h2 h3 h4
  · simp
  · simp
  · simp
  · simp
  · rcases h with hc | hc | hc | hc | hc | hc | hc | hc
    · exact absurd hc h1
    · exact absurd hc h2
    · exact absurd hc h3
    · exact absurd hc h4
    · cases hx1 : incomeScheduleIssue "Person 1" p.age_now retire_age p.income_schedule with
      | some r => simp [hx1]
      | none => exact absurd hx1 (incomeScheduleIssue_some_of _ _ _ _ hc)
    · cases hx1 : incomeScheduleIssue "Person 1" p.age_now retire_age p.income_schedule with
      | some r => simp [hx1]
      | none =>
        cases hx2 : incomeScheduleIssue "Person 2" p.spouse_age_now sra
            p.spouse_income_schedule with
        | some r => simp [hx1, hx2]
        | none => exact absurd hx2 (incomeScheduleIssue_some_of _ _ _ _ hc)
    · cases hx1 : incomeScheduleIssue "Person 1" p.age_now retire_age p.income_schedule with
      | some r => simp [hx1]
      | none =>
        cases hx2 : incomeScheduleIssue "Person 2" p.spouse_age_now sra
            p.spouse_income_schedule with
        | some r => simp [hx1, hx2]
        | none =>
          cases hx3 : oneTimeEventIssue p.age_now p.end_age p.one_time_events with
          | some r => simp [hx1, hx2, hx3]
          | none => exact absurd hx3 (oneTimeEventIssue_some_of _ _ _ hc)
    · cases hx1 : incomeScheduleIssue "Person 1" p.age_now retire_age p.income_schedule with
      | some r => simp [hx1]
      | none =>
        cases hx2 : incomeScheduleIssue "Person 2" p.spouse_age_now sra
            p.spouse_income_schedule with
        | some r => simp [hx1, hx2]
        | none =>
          cases hx3 : oneTimeEventIssue p.age_now p.end_age p.one_time_events with
          | some r => simp [hx1, hx2, hx3]
          | none =>
            simp only [hx1, hx2, hx3]
            exact expenseScheduleIssue_some_of _ _ _ hc

/-- Any reason produced by `validate` is nonempty. -/
theorem validate_reason_ne (retire_age : ℚ) (p : Params) (sra : ℚ) (r : String)
    (h : validate retire_age p sra = some r) : r ≠ "" := by
  unfold validate at h
  split_ifs at h with h1 h2 h3 h4
  · cases h; decide
  · cases h; decide
  · cases h; decide
  · cases h; decide
  · cases hx1 : incomeScheduleIssue "Person 1" p.age_now retire_age p.income_schedule with
    | some r1 =>
      rw [hx1] at h; cases h
      exact incomeScheduleIssue_reason_ne _ _ _ _ _ hx1
    | none =>
      rw [hx1] at h
      cases hx2 : incomeScheduleIssue "Person 2" p.spouse_age_now sra
          p.spouse_income_schedule with
      | some r2 =>
        rw [hx2] at h; cases h
        exact incomeScheduleIssue_reason_ne _ _ _ _ _ hx2
      | none =>
        rw [hx2] at h
        cases hx3 : oneTimeEventIssue p.age_now p.end_age p.one_time_events with
        | some r3 =>
          rw [hx3] at h; cases h
          exact oneTimeEventIssue_reason_ne _ _ _ _ hx3
        | none =>
          rw [hx3] at h
          exact expenseScheduleIssue_reason_ne _ _ _ _ h

/-- Failed validation short-circuits `simulate` into the empty-series
infeasible result carrying the validation reason. -/
theorem simulate_invalid (retire_age : ℚ) (p : Params) (spouseRetire : Option ℚ) (r : String)
    (h : validate retire_age p (spouseRetire.getD p.spouse_retire_age) = some r) :
    simulate retire_age p spouseRetire
      = { ok := false, reason := r, df := [], pension_at_start := 0,
          pension_income_month := 0, spouse_pension_at_start := 0,
          spouse_pension_income_month := 0, liquid_end := 0,
          liquid_at_pension_start := 0 } := by
  simp only [simulate]
  rw [h]

/-- C2: every precondition violation (retirement-age ordering, income
schedule out of `[current age, retirement age)` or negative, one-time event
outside `[current age, end age]`, expense schedule outside that window or
negative) yields an infeasible result with a nonempty reason and an empty
series — no month of the loop executes; and in particular a retirement age
below the current age yields exactly the source's ordering-violation
reason with an empty series. -/
theorem claim2_validation_short_circuit (retire_age : ℚ) (p : Params) (spouseRetire : Option ℚ)
    (h : ValidationIssue retire_age p (spouseRetire.getD p.spouse_retire_age)) :
    ((simulate retire_age p spouseRetire).ok = false
      ∧ (simulate retire_age p spouseRetire).df = []
      ∧ (simulate retire_age p spouseRetire).reason ≠ "")
    ∧ (retire_age < p.age_now →
        (simulate retire_age p spouseRetire).reason
          = "Person 1 retirement age cannot be before current age") := by
  obtain ⟨r, hr⟩ : ∃ r, validate retire_age p (spouseRetire.getD p.spouse_retire_age) = some r := by
    cases hx : validate retire_age p (spouseRetire.getD p.spouse_retire_age) with
    | none => exact absurd hx (validate_some_of_issue _ _ _ h)
    | some r => exact ⟨r, rfl⟩
  rw [simulate_invalid retire_age p spouseRetire r hr]
  refine ⟨⟨rfl, rfl, validate_reason_ne _ _ _ _ hr⟩, ?_⟩
  intro hra
  have hlit : validate retire_age p (spouseRetire.getD p.spouse_retire_age)
      = some "Person 1 retirement age cannot be before current age" := by
    unfold validate
    rw [if_pos hra]
  have := hr.symm.trans hlit
  exact (Option.some.injEq _ _ ▸ this).symm ▸ rfl

/-- Witness for C2: retirement age 50 below current age 60 at `wparamsA`. -/
theorem claim2_witness :
    ((simulate 50 wparamsA (some 60)).ok = false
      ∧ (simulate 50 wparamsA (some 60)).df = []
      ∧ (simulate 50 wparamsA (some 60)).reason ≠ "")
    ∧ ((50 : ℚ) < wparamsA.age_now →
        (simulate 50 wparamsA (some 60)).reason
          = "Person 1 retirement age cannot be before current age") :=
  claim2_validation_short_circuit 50 wparamsA (some 60)
    (Or.inl (by norm_num [wparamsA]))

/-- Branch behaviour of the summary fields `pension_at_start` /
`spouse_pension_at_start` in the post-loop verdict. -/
theorem buildResult_pension_fields (p : Params) (s : SimState) :
    ((buildResult p s).ok = true →
      (s.pension1_income_active = false → (buildResult p s).pension_at_start = 0)
      ∧ (s.pension2_income_active = false → (buildResult p s).spouse_pension_at_start = 0))
    ∧ ((buildResult p s).ok = false →
      (buildResult p s).pension_at_start = s.pension1
      ∧ (buildResult p s).spouse_pension_at_start = s.pension2) := by
  unfold buildResult
  by_cases h1 : s.min_assets_violated <;> by_cases h2 : s.liquid < p.min_assets <;>
    simp [h1, h2] <;> constructor <;> (intro h; simp [h])

/-- C10: for a validated run, the feasible branch zeroes `pension_at_start`
(and the spouse field) whenever the corresponding payout never activated,
while both infeasible branches carry the raw final pension balances
regardless of activation — so the reported value depends on the verdict. -/
theorem claim10_pension_at_start_branches (retire_age : ℚ) (p : Params)
    (spouseRetire : Option ℚ)
    (hv : validate retire_age p (spouseRetire.getD p.spouse_retire_age) = none) :
    ((simulate retire_age p spouseRetire).ok = true →
      ((simStateAfter p retire_age (spouseRetire.getD p.spouse_retire_age)
          (total_months p).toNat).pension1_income_active = false →
        (simulate retire_age p spouseRetire).pension_at_start = 0)
      ∧ ((simStateAfter p retire_age (spouseRetire.getD p.spouse_retire_age)
          (total_months p).toNat).pension2_income_active = false →
        (simulate retire_age p spouseRetire).spouse_pension_at_start = 0))
    ∧ ((simulate retire_age p spouseRetire).ok = false →
      (simulate retire_age p spouseRetire).pension_at_start
        = (simStateAfter p retire_age (spouseRetire.getD p.spouse_retire_age)
            (total_months p).toNat).pension1
      ∧ (simulate retire_age p spouseRetire).spouse_pension_at_start
        = (simStateAfter p retire_age (spouseRetire.getD p.spouse_retire_age)
            (total_months p).toNat).pension2) := by
  rw [simulate_validated retire_age p spouseRetire hv]
  exact buildResult_pension_fields p _

/-- Witness parameter set for C10's infeasible branch: a sky-high floor
makes every month violate, while the pension payout never activates. -/
def wparamsB : Params :=
  { wparamsA with end_age := 361/6, min_assets := 1000000000 }

set_option maxRecDepth 100000 in
set_option maxHeartbeats 2000000 in
/-- Witness for C10: with the payout never activating, the infeasible run at
`wparamsB` reports the raw final balance 400000 while the feasible run at
`wparamsA` reports 0. -/
theorem claim10_witness :
    (simulate 60 wparamsB (some 60)).ok = false
    ∧ (simulate 60 wparamsB (some 60)).pension_at_start
        = (simStateAfter wparamsB 60 60 (total_months wparamsB).toNat).pension1
    ∧ (simStateAfter wparamsB 60 60 (total_months wparamsB).toNat).pension1_income_active = false
    ∧ (simStateAfter wparamsB 60 60 (total_months wparamsB).toNat).pension1 = 400000
    ∧ (simulate 60 wparamsA (some 60)).ok = true
    ∧ (simStateAfter wparamsA 60 60 (total_months wparamsA).toNat).pension1_income_active = false
    ∧ (simulate 60 wparamsA (some 60)).pension_at_start = 0 := by
  have hvB : validate 60 wparamsB ((some (60 : ℚ)).getD wparamsB.spouse_retire_age) = none := by
    norm_num [validate, wparamsB, wparamsA, incomeScheduleIssue, oneTimeEventIssue,
      expenseScheduleIssue]
  have hvA : validate 60 wparamsA ((some (60 : ℚ)).getD wparamsA.spouse_retire_age) = none := by
    norm_num [validate, wparamsA, incomeScheduleIssue, oneTimeEventIssue, expenseScheduleIssue]
  have hokB : (simulate 60 wparamsB (some 60)).ok = false := by
    norm_num [simulate, validate, wparamsB, wparamsA, incomeScheduleIssue, oneTimeEventIssue,
      expenseScheduleIssue, buildResult, simStateAfter, simStep, monthCalc, monthAge,
      person1Salary, person2Salary, applyOneTimeEvents, pensionAfterContrib1,
      pensionAfterContrib2, liquidAfterEvents, pensionNetIncome, oldAgeActive1, oldAgeActive2,
      oldAgeTotal, get_income_at_age, get_expense_at_age, calculate_monthly_tax_from_gross,
      calculate_income_tax, calculate_national_insurance, bracketScan, NATIONAL_INSURANCE,
      ISRAELI_TAX_BRACKETS, initState, total_months, older_age_now, pyRound, monthEntry]
  have hokA : (simulate 60 wparamsA (some 60)).ok = true := by
    norm_num [simulate, validate, wparamsA, incomeScheduleIssue, oneTimeEventIssue,
      expenseScheduleIssue, buildResult, simStateAfter, simStep, monthCalc, monthAge,
      person1Salary, person2Salary, applyOneTimeEvents, pensionAfterContrib1,
      pensionAfterContrib2, liquidAfterEvents, pensionNetIncome, oldAgeActive1, oldAgeActive2,
      oldAgeTotal, get_income_at_age, get_expense_at_age, calculate_monthly_tax_from_gross,
      calculate_income_tax, calculate_national_insurance, bracketScan, NATIONAL_INSURANCE,
      ISRAELI_TAX_BRACKETS, initState, total_months, older_age_now, pyRound, monthEntry]
  have hflagB : (simStateAfter wparamsB 60 60 (total_months wparamsB).toNat).pension1_income_active
      = false := by
    norm_num [simStateAfter, simStep, monthCalc, monthAge, person1Salary, person2Salary,
      applyOneTimeEvents, pensionAfterContrib1, pensionAfterContrib2, liquidAfterEvents,
      pensionNetIncome, oldAgeActive1, oldAgeActive2, oldAgeTotal, get_income_at_age,
      get_expense_at_age, calculate_monthly_tax_from_gross, calculate_income_tax,
      calculate_national_insurance, bracketScan, NATIONAL_INSURANCE, ISRAELI_TAX_BRACKETS,
      initState, total_months, older_age_now, pyRound, wparamsB, wparamsA]
  have hbalB : (simStateAfter wparamsB 60 60 (total_months wparamsB).toNat).pension1
      = 400000 := by
    norm_num [simStateAfter, simStep, monthCalc, monthAge, person1Salary, person2Salary,
      applyOneTimeEvents, pensionAfterContrib1, pensionAfterContrib2, liquidAfterEvents,
      pensionNetIncome, oldAgeActive1, oldAgeActive2, oldAgeTotal, get_income_at_age,
      get_expense_at_age, calculate_monthly_tax_from_gross, calculate_income_tax,
      calculate_national_insurance, bracketScan, NATIONAL_INSURANCE, ISRAELI_TAX_BRACKETS,
      initState, total_months, older_age_now, pyRound, wparamsB, wparamsA]
  have hflagA : (simStateAfter wparamsA 60 60 (total_months wparamsA).toNat).pension1_income_active
      = false := by
    norm_num [simStateAfter, simStep, monthCalc, monthAge, person1Salary, person2Salary,
      applyOneTimeEvents, pensionAfterContrib1, pensionAfterContrib2, liquidAfterEvents,
      pensionNetIncome, oldAgeActive1, oldAgeActive2, oldAgeTotal, get_income_at_age,
      get_expense_at_age, calculate_monthly_tax_from_gross, calculate_income_tax,
      calculate_national_insurance, bracketScan, NATIONAL_INSURANCE, ISRAELI_TAX_BRACKETS,
      initState, total_months, older_age_now, pyRound, wparamsA]
  refine ⟨hokB, ?_, hflagB, hbalB, hokA, hflagA, ?_⟩
  · exact ((claim10_pension_at_start_branches 60 wparamsB (some 60) hvB).2 hokB).1
  · exact ((claim10_pension_at_start_branches 60 wparamsA (some 60) hvA).1 hokA).1 hflagA

/-- Trigger age of the `i`-th one-time event. -/
def eventAge (p : Params) (i : ℕ) : ℚ := (p.one_time_events.getD i default).1

/-- Signed amount of the `i`-th one-time event. -/
def eventAmount (p : Params) (i : ℕ) : ℚ := (p.one_time_events.getD i default).2.1

/-- Whether the `i`-th one-time event has been applied within the first `n`
months of the run. -/
def appliedFlag (p : Params) (ra sra : ℚ) (n i : ℕ) : Bool :=
  ((simStateAfter p ra sra n).applied_events).getD i false

/-- The `i`-th one-time event is applied exactly in month `m` (its flag
flips from clear to set across that month). -/
def eventFires (p : Params) (ra sra : ℚ) (i m : ℕ) : Prop :=
  appliedFlag p ra sra (m + 1) i = true ∧ appliedFlag p ra sra m i = false

instance eventFiresDecidable (p : Params) (ra sra : ℚ) (i m : ℕ) :
    Decidable (eventFires p ra sra i m) :=
  inferInstanceAs (Decidable (appliedFlag p ra sra (m + 1) i = true
    ∧ appliedFlag p ra sra m i = false))

/-- The tail of a flag list shifts positional lookup by one. -/
theorem tail_getD (flags : List Bool) (i : ℕ) :
    flags.tail.getD i false = flags.getD (i + 1) false := by
  cases flags <;> simp

/-- The event sweep sets each in-range flag to its old value or-ed with the
trigger-age test, independently of the other events. -/
theorem applyOneTimeEvents_flag (age1 : ℚ) :
    ∀ (evs : List (ℚ × ℚ × String)) (flags : List Bool) (i : ℕ), i < evs.length →
      ((applyOneTimeEvents age1 evs flags).2).getD i false
        = (flags.getD i false || decide ((evs.getD i default).1 ≤ age1)) := by
  intro evs
  induction evs with
  | nil => intro flags i hi; exact absurd hi (by simp)
  | cons e t ih =>
    intro flags i hi
    have hfl0 : flags.getD 0 false = flags.headD false := by cases flags <;> rfl
    simp only [applyOneTimeEvents]
    by_cases hc : e.1 ≤ age1 ∧ flags.headD false = false
    · rw [if_pos hc]
      cases i with
      | zero =>
        rw [hfl0, hc.2]
        simp [hc.1]
      | succ j =>
        have hj : j < t.length := by simpa using hi
        simp only [List.getD_cons_succ]
        rw [ih flags.tail j hj, tail_getD]
    · rw [if_neg hc]
      cases i with
      | zero =>
        rw [hfl0]
        simp only [List.getD_cons_zero]
        rcases Decidable.not_and_iff_or_not.mp hc with h | h
        · simp [h]
        · have hT : flags.headD false = true := by
            cases hx : flags.headD false
            · exact absurd hx h
            · rfl
          rw [hT]
          simp
      | succ j =>
        have hj : j < t.length := by simpa using hi
        simp only [List.getD_cons_succ]
        rw [ih flags.tail j hj, tail_getD]

/-- The initial flag list is all-clear. -/
theorem appliedFlag_zero (p : Params) (ra sra : ℚ) (i : ℕ) :
    appliedFlag p ra sra 0 i = false := by
  unfold appliedFlag
  show (List.replicate p.one_time_events.length false).getD i false = false
  by_cases hi : i < p.one_time_events.length
  · rw [List.getD_eq_getElem _ _ (by simpa using hi)]
    simp
  · rw [List.getD_eq_default _ _ (by simpa using not_lt.mp hi)]

/-- Month-step recurrence of an event flag: it stays set, and becomes set
exactly when the primary person's age reaches the trigger age. -/
theorem appliedFlag_succ (p : Params) (ra sra : ℚ) (n i : ℕ)
    (hi : i < p.one_time_events.length) :
    appliedFlag p ra sra (n + 1) i
      = (appliedFlag p ra sra n i || decide (eventAge p i ≤ monthAge p.age_now n)) := by
  unfold appliedFlag eventAge
  have h : (simStateAfter p ra sra (n + 1)).applied_events
      = (applyOneTimeEvents (monthAge p.age_now n) p.one_time_events
          (simStateAfter p ra sra n).applied_events).2 := rfl
  rw [h, applyOneTimeEvents_flag _ _ _ i hi]

/-- Closed form: the flag after `n` months says some earlier month reached
the trigger age. -/
theorem appliedFlag_iff (p : Params) (ra sra : ℚ) (i : ℕ)
    (hi : i < p.one_time_events.length) (n : ℕ) :
    appliedFlag p ra sra n i = true
      ↔ ∃ m, m < n ∧ eventAge p i ≤ monthAge p.age_now m := by
  induction n with
  | zero => simp [appliedFlag_zero]
  | succ k ih =>
    rw [appliedFlag_succ p ra sra k i hi]
    simp only [Bool.or_eq_true, decide_eq_true_eq, ih]
    constructor
    · rintro (⟨m, hm, hle⟩ | hle)
      · exact ⟨m, Nat.lt_succ_of_lt hm, hle⟩
      · exact ⟨k, Nat.lt_succ_self k, hle⟩
    · rintro ⟨m, hm, hle⟩
      rcases Nat.lt_succ_iff_lt_or_eq.mp hm with hm' | rfl
      · exact Or.inl ⟨m, hm', hle⟩
      · exact Or.inr hle

/-- The amount credited by the event sweep is the sum of the amounts of the
events that fire this month (trigger reached, flag still clear). -/
theorem applyOneTimeEvents_amount (age1 : ℚ) :
    ∀ (evs : List (ℚ × ℚ × String)) (flags : List Bool),
      (applyOneTimeEvents age1 evs flags).1
        = Finset.sum (Finset.range evs.length) (fun i =>
            if (evs.getD i default).1 ≤ age1 ∧ flags.getD i false = false
            then (evs.getD i default).2.1 else 0) := by
  intro evs
  induction evs with
  | nil => intro flags; simp [applyOneTimeEvents]
  | cons e t ih =>
    intro flags
    simp only [applyOneTimeEvents, List.length_cons]
    rw [Finset.sum_range_succ']
    have hshift : (Finset.sum (Finset.range t.length) fun i =>
        if ((e :: t).getD (i + 1) default).1 ≤ age1 ∧ flags.getD (i + 1) false = false
        then ((e :: t).getD (i + 1) default).2.1 else 0)
        = Finset.sum (Finset.range t.length) (fun i =>
            if (t.getD i default).1 ≤ age1 ∧ flags.tail.getD i false = false
            then (t.getD i default).2.1 else 0) := by
      refine Finset.sum_congr rfl fun i _ => ?_
      rw [List.getD_cons_succ, tail_getD]
    rw [hshift, ← ih flags.tail]
    have hfl0 : flags.getD 0 false = flags.headD false := by cases flags <;> simp
    by_cases hc : e.1 ≤ age1 ∧ flags.headD false = false
    · rw [if_pos hc]
      simp only [List.getD_cons_zero, hfl0]
      rw [if_pos hc, add_comm]
    · rw [if_neg hc]
      simp only [List.getD_cons_zero, hfl0]
      rw [if_neg hc, add_zero]

/-- Positional access into the recorded series. -/
theorem records_getD (p : Params) (ra sra : ℚ) (N m : ℕ) (hm : m < N) :
    ((simStateAfter p ra sra N).records).getD m default
      = monthEntry p ra sra m (simStateAfter p ra sra m) := by
  rw [simStateAfter_records]
  rw [List.getD_eq_getElem _ _ (by simpa using hm)]
  simp

/-- The recorded `one_time_event` field is the event sweep's credited sum. -/
theorem monthEntry_one_time_event (p : Params) (ra sra : ℚ) (m : ℕ) (s : SimState) :
    (monthEntry p ra sra m s).one_time_event
      = (applyOneTimeEvents (monthAge p.age_now m) p.one_time_events s.applied_events).1 := rfl

/-- C4: for a validated run, each one-time event fires exactly at the first
simulated month where the primary person's age reaches its trigger age
(never before, never again later — at most once over the whole run), and
each month's recorded one-time-event amount is the sum of the signed
amounts of exactly the events firing that month. -/
theorem claim4_one_time_events (retire_age : ℚ) (p : Params) (spouseRetire : Option ℚ)
    (hv : validate retire_age p (spouseRetire.getD p.spouse_retire_age) = none) :
    (∀ i, i < p.one_time_events.length →
      (∀ m, eventFires p retire_age (spouseRetire.getD p.spouse_retire_age) i m
        ↔ (eventAge p i ≤ monthAge p.age_now m
            ∧ ∀ k, k < m → monthAge p.age_now k < eventAge p i))
      ∧ (∀ m1 m2, eventFires p retire_age (spouseRetire.getD p.spouse_retire_age) i m1 →
          eventFires p retire_age (spouseRetire.getD p.spouse_retire_age) i m2 → m1 = m2))
    ∧ (∀ m, m < (total_months p).toNat →
        ((simulate retire_age p spouseRetire).df.getD m default).one_time_event
          = Finset.sum (Finset.range p.one_time_events.length) (fun i =>
              if eventFires p retire_age (spouseRetire.getD p.spouse_retire_age) i m
              then eventAmount p i else 0)) := by
  have hchar : ∀ i, i < p.one_time_events.length → ∀ m,
      eventFires p retire_age (spouseRetire.getD p.spouse_retire_age) i m
        ↔ (eventAge p i ≤ monthAge p.age_now m
            ∧ ∀ k, k < m → monthAge p.age_now k < eventAge p i) := by
    intro i hi m
    unfold eventFires
    rw [Bool.eq_false_iff, Ne, appliedFlag_iff p _ _ i hi,
      appliedFlag_iff p _ _ i hi]
    constructor
    · rintro ⟨⟨j, hj, hle⟩, hnone⟩
      have hmle : eventAge p i ≤ monthAge p.age_now m := by
        rcases Nat.lt_succ_iff_lt_or_eq.mp hj with hj' | rfl
        · exact absurd ⟨j, hj', hle⟩ hnone
        · exact hle
      refine ⟨hmle, fun k hk => ?_⟩
      by_contra hnk
      exact hnone ⟨k, hk, not_lt.mp hnk⟩
    · rintro ⟨hle, hall⟩
      refine ⟨⟨m, Nat.lt_succ_self m, hle⟩, ?_⟩
      rintro ⟨k, hk, hkle⟩
      exact absurd hkle (not_le.mpr (hall k hk))
  refine ⟨fun i hi => ⟨hchar i hi, fun m1 m2 h1 h2 => ?_⟩, fun m hm => ?_⟩
  · rcases (hchar i hi m1).mp h1 with ⟨hle1, hall1⟩
    rcases (hchar i hi m2).mp h2 with ⟨hle2, hall2⟩
    rcases lt_trichotomy m1 m2 with h | h | h
    · exact absurd hle1 (not_le.mpr (hall2 m1 h))
    · exact h
    · exact absurd hle2 (not_le.mpr (hall1 m2 h))
  · rw [simulate_validated retire_age p spouseRetire hv, buildResult_df,
      records_getD p _ _ _ m hm, monthEntry_one_time_event,
      applyOneTimeEvents_amount]
    refine Finset.sum_congr rfl fun i him => ?_
    have hi : i < p.one_time_events.length := Finset.mem_range.mp him
    have hcond : ((p.one_time_events.getD i default).1 ≤ monthAge p.age_now m
        ∧ (simStateAfter p retire_age (spouseRetire.getD p.spouse_retire_age)
            m).applied_events.getD i false = false)
        ↔ eventFires p retire_age (spouseRetire.getD p.spouse_retire_age) i m := by
      unfold eventFires
      rw [appliedFlag_succ p _ _ m i hi]
      have hfleq : appliedFlag p retire_age (spouseRetire.getD p.spouse_retire_age) m i
          = (simStateAfter p retire_age (spouseRetire.getD p.spouse_retire_age)
              m).applied_events.getD i false := rfl
      constructor
      · rintro ⟨hle, hfl⟩
        refine ⟨?_, by rw [hfleq]; exact hfl⟩
        rw [hfleq, hfl]
        simpa [eventAge] using hle
      · rintro ⟨hsucc, hfl⟩
        rw [hfleq] at hfl hsucc
        rw [hfl] at hsucc
        exact ⟨by simpa [eventAge] using hsucc, hfl⟩
    exact if_congr hcond rfl rfl

/-- Witness parameter set for C4: one event of +5000 triggered at age 60.25
on a six-month horizon starting at 60. -/
def wparamsC : Params :=
  { wparamsA with one_time_events := [(241/4, 5000, "bonus")] }

/-- Witness for C4: the event fires exactly at month 3, the first month
whose age 60.25 reaches the trigger. -/
theorem claim4_witness : eventFires wparamsC 60 60 0 3 :=
  (((claim4_one_time_events 60 wparamsC (some 60)
      (by norm_num [validate, wparamsC, wparamsA, incomeScheduleIssue, oneTimeEventIssue,
        expenseScheduleIssue])).1
    0 (by norm_num [wparamsC, wparamsA])).1 3).mpr
    ⟨by norm_num [eventAge, monthAge, wparamsC, wparamsA],
     by intro k hk; interval_cases k <;> norm_num [eventAge, monthAge, wparamsC, wparamsA]⟩

/-- Person 1 payout bookkeeping of one month, read off the step function:
the active flag picks up the activation test, and the payout amount is
fixed at activation (balance at the instant of activation over the
divisor) and untouched otherwise. -/
theorem simStep_pension1_fields (p : Params) (ra sra : ℚ) (m : ℕ) (s : SimState) :
    (simStep p ra sra m s).pension1_income_active
      = (s.pension1_income_active
          || (!s.pension1_income_active && decide (p.pension_start_age ≤ monthAge p.age_now m)))
    ∧ (simStep p ra sra m s).pension1_income_month
      = (if (!s.pension1_income_active && decide (p.pension_start_age ≤ monthAge p.age_now m))
          then pensionAfterContrib1 p ra m s / p.mekadem else s.pension1_income_month) :=
  ⟨rfl, rfl⟩

/-- Person 2 analogue of `simStep_pension1_fields`. -/
theorem simStep_pension2_fields (p : Params) (ra sra : ℚ) (m : ℕ) (s : SimState) :
    (simStep p ra sra m s).pension2_income_active
      = (s.pension2_income_active
          || (!s.pension2_income_active
              && decide (p.spouse_pension_start_age ≤ monthAge p.spouse_age_now m)))
    ∧ (simStep p ra sra m s).pension2_income_month
      = (if (!s.pension2_income_active
              && decide (p.spouse_pension_start_age ≤ monthAge p.spouse_age_now m))
          then pensionAfterContrib2 p sra m s / p.spouse_mekadem else s.pension2_income_month) :=
  ⟨rfl, rfl⟩

/-- Balance updates of one month: each active payout's gross amount is
deducted from that person's pension balance, while liquid assets receive
only the net (allowance-and-tax-adjusted) pension income, plus the old-age
benefit, minus the expense. -/
theorem simStep_balances (p : Params) (ra sra : ℚ) (m : ℕ) (s : SimState) :
    (simStep p ra sra m s).pension1
      = (if (simStep p ra sra m s).pension1_income_active
          then pensionAfterContrib1 p ra m s - (simStep p ra sra m s).pension1_income_month
          else pensionAfterContrib1 p ra m s)
    ∧ (simStep p ra sra m s).pension2
      = (if (simStep p ra sra m s).pension2_income_active
          then pensionAfterContrib2 p sra m s - (simStep p ra sra m s).pension2_income_month
          else pensionAfterContrib2 p sra m s)
    ∧ (simStep p ra sra m s).liquid
      = liquidAfterEvents p ra sra m s
        + ((if (simStep p ra sra m s).pension1_income_active
            then pensionNetIncome p ((simStep p ra sra m s).pension1_income_month) else 0)
          + (if (simStep p ra sra m s).pension2_income_active
            then pensionNetIncome p ((simStep p ra sra m s).pension2_income_month) else 0))
        + oldAgeTotal p m s
        - get_expense_at_age (monthAge p.age_now m) p.spend_month p.expense_schedule :=
  ⟨rfl, rfl, rfl⟩

/-- Once active, a month step changes neither the payout amount nor the flag. -/
theorem simStep_payout_frozen1 (p : Params) (ra sra : ℚ) (m : ℕ) (s : SimState)
    (h : s.pension1_income_active = true) :
    (simStep p ra sra m s).pension1_income_month = s.pension1_income_month
    ∧ (simStep p ra sra m s).pension1_income_active = true := by
  refine ⟨?_, ?_⟩
  · rw [(simStep_pension1_fields p ra sra m s).2, h]; simp
  · rw [(simStep_pension1_fields p ra sra m s).1, h]; simp

/-- Person 2 analogue of `simStep_payout_frozen1`. -/
theorem simStep_payout_frozen2 (p : Params) (ra sra : ℚ) (m : ℕ) (s : SimState)
    (h : s.pension2_income_active = true) :
    (simStep p ra sra m s).pension2_income_month = s.pension2_income_month
    ∧ (simStep p ra sra m s).pension2_income_active = true := by
  refine ⟨?_, ?_⟩
  · rw [(simStep_pension2_fields p ra sra m s).2, h]; simp
  · rw [(simStep_pension2_fields p ra sra m s).1, h]; simp

/-- C5: in a validated run, (i) when a person's payout activates in month
`m`, the monthly payout becomes exactly the pension balance at the instant
of activation (after that month's returns and contributions) divided by
that person's divisor; (ii) once active, the payout amount never changes in
any later month; (iii) each month every active payout's gross amount is
deducted from that person's pension balance while liquid assets receive
only the net (after allowance and tax) pension income. -/
theorem claim5_pension_payout (retire_age : ℚ) (p : Params) (spouseRetire : Option ℚ)
    (hv : validate retire_age p (spouseRetire.getD p.spouse_retire_age) = none) :
    (∀ m, (simStateAfter p retire_age (spouseRetire.getD p.spouse_retire_age)
          m).pension1_income_active = false →
      p.pension_start_age ≤ monthAge p.age_now m →
      (simStateAfter p retire_age (spouseRetire.getD p.spouse_retire_age)
          (m + 1)).pension1_income_month
        = pensionAfterContrib1 p retire_age m
            (simStateAfter p retire_age (spouseRetire.getD p.spouse_retire_age) m) / p.mekadem
      ∧ (simStateAfter p retire_age (spouseRetire.getD p.spouse_retire_age)
          (m + 1)).pension1_income_active = true)
    ∧ (∀ m, (simStateAfter p retire_age (spouseRetire.getD p.spouse_retire_age)
          m).pension2_income_active = false →
      p.spouse_pension_start_age ≤ monthAge p.spouse_age_now m →
      (simStateAfter p retire_age (spouseRetire.getD p.spouse_retire_age)
          (m + 1)).pension2_income_month
        = pensionAfterContrib2 p (spouseRetire.getD p.spouse_retire_age) m
            (simStateAfter p retire_age (spouseRetire.getD p.spouse_retire_age) m)
            / p.spouse_mekadem
      ∧ (simStateAfter p retire_age (spouseRetire.getD p.spouse_retire_age)
          (m + 1)).pension2_income_active = true)
    ∧ (∀ m k, (simStateAfter p retire_age (spouseRetire.getD p.spouse_retire_age)
          m).pension1_income_active = true →
      (simStateAfter p retire_age (spouseRetire.getD p.spouse_retire_age)
          (m + k)).pension1_income_month
        = (simStateAfter p retire_age (spouseRetire.getD p.spouse_retire_age)
            m).pension1_income_month
      ∧ (simStateAfter p retire_age (spouseRetire.getD p.spouse_retire_age)
          (m + k)).pension1_income_active = true)
    ∧ (∀ m k, (simStateAfter p retire_age (spouseRetire.getD p.spouse_retire_age)
          m).pension2_income_active = true →
      (simStateAfter p retire_age (spouseRetire.getD p.spouse_retire_age)
          (m + k)).pension2_income_month
        = (simStateAfter p retire_age (spouseRetire.getD p.spouse_retire_age)
            m).pension2_income_month
      ∧ (simStateAfter p retire_age (spouseRetire.getD p.spouse_retire_age)
          (m + k)).pension2_income_active = true)
    ∧ (∀ m,
      (simStateAfter p retire_age (spouseRetire.getD p.spouse_retire_age) (m + 1)).pension1
        = (if (simStateAfter p retire_age (spouseRetire.getD p.spouse_retire_age)
              (m + 1)).pension1_income_active
            then pensionAfterContrib1 p retire_age m
                (simStateAfter p retire_age (spouseRetire.getD p.spouse_retire_age) m)
              - (simStateAfter p retire_age (spouseRetire.getD p.spouse_retire_age)
                  (m + 1)).pension1_income_month
            else pensionAfterContrib1 p retire_age m
                (simStateAfter p retire_age (spouseRetire.getD p.spouse_retire_age) m))
      ∧ (simStateAfter p retire_age (spouseRetire.getD p.spouse_retire_age) (m + 1)).pension2
        = (if (simStateAfter p retire_age (spouseRetire.getD p.spouse_retire_age)
              (m + 1)).pension2_income_active
            then pensionAfterContrib2 p (spouseRetire.getD p.spouse_retire_age) m
                (simStateAfter p retire_age (spouseRetire.getD p.spouse_retire_age) m)
              - (simStateAfter p retire_age (spouseRetire.getD p.spouse_retire_age)
                  (m + 1)).pension2_income_month
            else pensionAfterContrib2 p (spouseRetire.getD p.spouse_retire_age) m
                (simStateAfter p retire_age (spouseRetire.getD p.spouse_retire_age) m))
      ∧ (simStateAfter p retire_age (spouseRetire.getD p.spouse_retire_age) (m + 1)).liquid
        = liquidAfterEvents p retire_age (spouseRetire.getD p.spouse_retire_age) m
            (simStateAfter p retire_age (spouseRetire.getD p.spouse_retire_age) m)
          + ((if (simStateAfter p retire_age (spouseRetire.getD p.spouse_retire_age)
                (m + 1)).pension1_income_active
              then pensionNetIncome p ((simStateAfter p retire_age
                  (spouseRetire.getD p.spouse_retire_age) (m + 1)).pension1_income_month)
              else 0)
            + (if (simStateAfter p retire_age (spouseRetire.getD p.spouse_retire_age)
                (m + 1)).pension2_income_active
              then pensionNetIncome p ((simStateAfter p retire_age
                  (spouseRetire.getD p.spouse_retire_age) (m + 1)).pension2_income_month)
              else 0))
          + oldAgeTotal p m
              (simStateAfter p retire_age (spouseRetire.getD p.spouse_retire_age) m)
          - get_expense_at_age (monthAge p.age_now m) p.spend_month p.expense_schedule) := by
  refine ⟨fun m h1 h2 => ?_, fun m h1 h2 => ?_, fun m k h => ?_, fun m k h => ?_, fun m => ?_⟩
  · rw [show simStateAfter p retire_age (spouseRetire.getD p.spouse_retire_age) (m + 1)
        = simStep p retire_age (spouseRetire.getD p.spouse_retire_age) m
            (simStateAfter p retire_age (spouseRetire.getD p.spouse_retire_age) m) from rfl,
      (simStep_pension1_fields p retire_age (spouseRetire.getD p.spouse_retire_age) m _).2,
      (simStep_pension1_fields p retire_age (spouseRetire.getD p.spouse_retire_age) m _).1,
      h1]
    simp [h2]
  · rw [show simStateAfter p retire_age (spouseRetire.getD p.spouse_retire_age) (m + 1)
        = simStep p retire_age (spouseRetire.getD p.spouse_retire_age) m
            (simStateAfter p retire_age (spouseRetire.getD p.spouse_retire_age) m) from rfl,
      (simStep_pension2_fields p retire_age (spouseRetire.getD p.spouse_retire_age) m _).2,
      (simStep_pension2_fields p retire_age (spouseRetire.getD p.spouse_retire_age) m _).1,
      h1]
    simp [h2]
  · induction k with
    | zero => exact ⟨rfl, h⟩
    | succ j ihj =>
      have hstep := simStep_payout_frozen1 p retire_age (spouseRetire.getD p.spouse_retire_age)
        (m + j) (simStateAfter p retire_age (spouseRetire.getD p.spouse_retire_age) (m + j))
        ihj.2
      exact ⟨hstep.1.trans ihj.1, hstep.2⟩
  · induction k with
    | zero => exact ⟨rfl, h⟩
    | succ j ihj =>
      have hstep := simStep_payout_frozen2 p retire_age (spouseRetire.getD p.spouse_retire_age)
        (m + j) (simStateAfter p retire_age (spouseRetire.getD p.spouse_retire_age) (m + j))
        ihj.2
      exact ⟨hstep.1.trans ihj.1, hstep.2⟩
  · exact simStep_balances p retire_age (spouseRetire.getD p.spouse_retire_age) m
      (simStateAfter p retire_age (spouseRetire.getD p.spouse_retire_age) m)

/-- Witness parameter set for C5: person 1's pension (balance 230000,
divisor 230) activates at age 60.25, month 3 of a six-month horizon. -/
def wparamsD : Params :=
  { wparamsA with pension_start_age := 241/4, pension_now := 230000 }

set_option maxRecDepth 100000 in
set_option maxHeartbeats 1000000 in
/-- Witness for C5: at `wparamsD` the payout activates in month 3 with the
frozen balance-over-divisor amount. -/
theorem claim5_witness :
    (simStateAfter wparamsD 60 60 4).pension1_income_month
      = pensionAfterContrib1 wparamsD 60 3 (simStateAfter wparamsD 60 60 3) / wparamsD.mekadem
    ∧ (simStateAfter wparamsD 60 60 4).pension1_income_active = true :=
  (claim5_pension_payout 60 wparamsD (some 60)
      (by norm_num [validate, wparamsD, wparamsA, incomeScheduleIssue, oneTimeEventIssue,
        expenseScheduleIssue])).1 3
    (by norm_num [simStateAfter, simStep, monthCalc, monthAge, person1Salary, person2Salary,
      applyOneTimeEvents, pensionAfterContrib1, pensionAfterContrib2, liquidAfterEvents,
      pensionNetIncome, oldAgeActive1, oldAgeActive2, oldAgeTotal, get_income_at_age,
      get_expense_at_age, calculate_monthly_tax_from_gross, calculate_income_tax,
      calculate_national_insurance, bracketScan, NATIONAL_INSURANCE, ISRAELI_TAX_BRACKETS,
      initState, wparamsD, wparamsA])
    (by norm_num [monthAge, wparamsD, wparamsA])

/-- The old-age flags stored by one month step. -/
theorem simStep_oldage_fields (p : Params) (ra sra : ℚ) (m : ℕ) (s : SimState) :
    (simStep p ra sra m s).old_age_pension1_active = oldAgeActive1 p m s
    ∧ (simStep p ra sra m s).old_age_pension2_active = oldAgeActive2 p m s :=
  ⟨rfl, rfl⟩

/-- Person 1 salary block under zero contribution rates and no schedule,
while still working: net pay is gross minus tax, and no savings flows. -/
theorem person1Salary_zero_rates (p : Params) (ra : ℚ) (m : ℕ)
    (h1 : p.pension_rate = 0) (h2 : p.pension_rate_employer = 0)
    (h3 : p.hishtalmut_rate_employee = 0) (h4 : p.hishtalmut_rate_employer = 0)
    (his : p.income_schedule = []) (hw : monthAge p.age_now m < ra) :
    person1Salary p ra m
      = { gross := p.gross_income_month,
          net := p.gross_income_month - calculate_monthly_tax_from_gross p.gross_income_month,
          hishtalmut := 0, pensionContrib := 0 } := by
  simp only [person1Salary, his]
  rw [if_pos hw]
  simp [get_income_at_age, h1, h2, h3, h4]

/-- Person 2 analogue of `person1Salary_zero_rates`. -/
theorem person2Salary_zero_rates (p : Params) (sra : ℚ) (m : ℕ)
    (h1 : p.spouse_pension_rate = 0) (h2 : p.spouse_pension_rate_employer = 0)
    (h3 : p.spouse_hishtalmut_rate_employee = 0) (h4 : p.spouse_hishtalmut_rate_employer = 0)
    (his : p.spouse_income_schedule = []) (hw : monthAge p.spouse_age_now m < sra) :
    person2Salary p sra m
      = { gross := p.spouse_gross_income_month,
          net := p.spouse_gross_income_month
            - calculate_monthly_tax_from_gross p.spouse_gross_income_month,
          hishtalmut := 0, pensionContrib := 0 } := by
  simp only [person2Salary, his]
  rw [if_pos hw]
  simp [get_income_at_age, h1, h2, h3, h4]

/-- Inductive core for C7: with zero return, zero contribution rates, no
schedules and no events, while both persons are strictly before retirement,
pension activation and the old-age threshold, the liquid balance is the
starting liquid plus `N` times the constant monthly net cash flow (and no
activation flag has been raised). -/
theorem claim7_aux (p : Params) (ra sra : ℚ)
    (hr : p.r_month = 0)
    (h1 : p.pension_rate = 0) (h2 : p.pension_rate_employer = 0)
    (h3 : p.hishtalmut_rate_employee = 0) (h4 : p.hishtalmut_rate_employer = 0)
    (h5 : p.spouse_pension_rate = 0) (h6 : p.spouse_pension_rate_employer = 0)
    (h7 : p.spouse_hishtalmut_rate_employee = 0) (h8 : p.spouse_hishtalmut_rate_employer = 0)
    (his1 : p.income_schedule = []) (his2 : p.spouse_income_schedule = [])
    (hes : p.expense_schedule = []) (hev : p.one_time_events = []) :
    ∀ N : ℕ, (∀ m, m < N →
      monthAge p.age_now m < ra ∧ monthAge p.spouse_age_now m < sra
      ∧ monthAge p.age_now m < p.pension_start_age
      ∧ monthAge p.spouse_age_now m < p.spouse_pension_start_age
      ∧ monthAge p.age_now m < p.old_age_pension_start_age
      ∧ monthAge p.spouse_age_now m < p.old_age_pension_start_age) →
    (simStateAfter p ra sra N).liquid
      = p.liquid_now + (N : ℚ) *
          ((p.gross_income_month - calculate_monthly_tax_from_gross p.gross_income_month)
            + (p.spouse_gross_income_month
                - calculate_monthly_tax_from_gross p.spouse_gross_income_month)
            - p.spend_month)
    ∧ (simStateAfter p ra sra N).pension1_income_active = false
    ∧ (simStateAfter p ra sra N).pension2_income_active = false
    ∧ (simStateAfter p ra sra N).old_age_pension1_active = false
    ∧ (simStateAfter p ra sra N).old_age_pension2_active = false := by
  intro N
  induction N with
  | zero => intro _; simp [simStateAfter, initState]
  | succ n ih =>
    intro hwork
    obtain ⟨hliq, hp1, hp2, ho1, ho2⟩ := ih (fun m hm => hwork m (Nat.lt_succ_of_lt hm))
    obtain ⟨hw1, hw2, hps1, hps2, ho1c, ho2c⟩ := hwork n (Nat.lt_succ_self n)
    have hstep1 : (simStep p ra sra n (simStateAfter p ra sra n)).pension1_income_active
        = false := by
      rw [(simStep_pension1_fields p ra sra n _).1, hp1]
      simp [not_le.mpr hps1]
    have hstep2 : (simStep p ra sra n (simStateAfter p ra sra n)).pension2_income_active
        = false := by
      rw [(simStep_pension2_fields p ra sra n _).1, hp2]
      simp [not_le.mpr hps2]
    have hoa1 : oldAgeActive1 p n (simStateAfter p ra sra n) = false := by
      unfold oldAgeActive1
      rw [ho1]
      simp [not_le.mpr ho1c]
    have hoa2 : oldAgeActive2 p n (simStateAfter p ra sra n) = false := by
      unfold oldAgeActive2
      rw [ho2]
      simp [not_le.mpr ho2c]
    have hso1 : (simStep p ra sra n (simStateAfter p ra sra n)).old_age_pension1_active
        = false := by
      rw [(simStep_oldage_fields p ra sra n _).1, hoa1]
    have hso2 : (simStep p ra sra n (simStateAfter p ra sra n)).old_age_pension2_active
        = false := by
      rw [(simStep_oldage_fields p ra sra n _).2, hoa2]
    refine ⟨?_, hstep1, hstep2, hso1, hso2⟩
    show (simStep p ra sra n (simStateAfter p ra sra n)).liquid = _
    rw [(simStep_balances p ra sra n _).2.2, hstep1, hstep2]
    have hoat : oldAgeTotal p n (simStateAfter p ra sra n) = 0 := by
      unfold oldAgeTotal
      rw [hoa1, hoa2]
      simp
    have hexp : get_expense_at_age (monthAge p.age_now n) p.spend_month p.expense_schedule
        = p.spend_month := by
      rw [hes]
      rfl
    have hlae : liquidAfterEvents p ra sra n (simStateAfter p ra sra n)
        = (simStateAfter p ra sra n).liquid
          + ((p.gross_income_month - calculate_monthly_tax_from_gross p.gross_income_month)
            + (p.spouse_gross_income_month
                - calculate_monthly_tax_from_gross p.spouse_gross_income_month)) := by
      unfold liquidAfterEvents
      rw [person1Salary_zero_rates p ra n h1 h2 h3 h4 his1 hw1,
        person2Salary_zero_rates p sra n h5 h6 h7 h8 his2 hw2, hev, hr]
      simp only [applyOneTimeEvents]
      ring
    rw [hoat, hexp, hlae, hliq]
    push_cast
    ring

/-- C7 (amended): for a validated run with zero monthly return, zero
pension and hishtalmut contribution rates and no income or expense
schedules, and additionally no one-time events and `N` not reaching any
person's retirement age, pension-activation age or old-age-benefit age,
the liquid assets after `N` months equal the starting liquid plus
`N` times (net monthly income minus monthly expense). -/
theorem claim7_additive_cash_flow (retire_age : ℚ) (p : Params) (spouseRetire : Option ℚ)
    (N : ℕ)
    (hv : validate retire_age p (spouseRetire.getD p.spouse_retire_age) = none)
    (hr : p.r_month = 0)
    (h1 : p.pension_rate = 0) (h2 : p.pension_rate_employer = 0)
    (h3 : p.hishtalmut_rate_employee = 0) (h4 : p.hishtalmut_rate_employer = 0)
    (h5 : p.spouse_pension_rate = 0) (h6 : p.spouse_pension_rate_employer = 0)
    (h7 : p.spouse_hishtalmut_rate_employee = 0) (h8 : p.spouse_hishtalmut_rate_employer = 0)
    (his1 : p.income_schedule = []) (his2 : p.spouse_income_schedule = [])
    (hes : p.expense_schedule = []) (hev : p.one_time_events = [])
    (hwork : ∀ m, m < N →
      monthAge p.age_now m < retire_age
      ∧ monthAge p.spouse_age_now m < spouseRetire.getD p.spouse_retire_age
      ∧ monthAge p.age_now m < p.pension_start_age
      ∧ monthAge p.spouse_age_now m < p.spouse_pension_start_age
      ∧ monthAge p.age_now m < p.old_age_pension_start_age
      ∧ monthAge p.spouse_age_now m < p.old_age_pension_start_age) :
    (simStateAfter p retire_age (spouseRetire.getD p.spouse_retire_age) N).liquid
      = p.liquid_now + (N : ℚ) *
          ((p.gross_income_month - calculate_monthly_tax_from_gross p.gross_income_month)
            + (p.spouse_gross_income_month
                - calculate_monthly_tax_from_gross p.spouse_gross_income_month)
            - p.spend_month) :=
  (claim7_aux p retire_age (spouseRetire.getD p.spouse_retire_age) hr h1 h2 h3 h4 h5 h6 h7 h8
    his1 his2 hes hev N hwork).1

/-- Counterexample parameter set for C7 as stated: zero return, zero
contribution rates, no schedules, no events, but person 1 (gross 7000)
retires after two months of a six-month horizon. -/
def wparamsE : Params :=
  { wparamsA with
    gross_income_month := 7000, liquid_now := 10000,
    pension_rate := 0, pension_rate_employer := 0, hishtalmut_rate_employee := 0,
    hishtalmut_rate_employer := 0, spouse_pension_rate := 0,
    spouse_pension_rate_employer := 0, spouse_hishtalmut_rate_employee := 0,
    spouse_hishtalmut_rate_employer := 0 }

set_option maxRecDepth 100000 in
set_option maxHeartbeats 1000000 in
/-- Counterexample to C7 as stated: `wparamsE` satisfies every hypothesis
the claim lists (valid, zero return, zero contributions, no schedules —
and not even any one-time event), yet after N = 4 months, person 1 having
retired at month 2, the liquid assets differ from
start + N x (net income - expense). -/
theorem claim7_counterexample :
    validate (361/6) wparamsE 60 = none
    ∧ wparamsE.r_month = 0
    ∧ wparamsE.pension_rate = 0 ∧ wparamsE.pension_rate_employer = 0
    ∧ wparamsE.hishtalmut_rate_employee = 0 ∧ wparamsE.hishtalmut_rate_employer = 0
    ∧ wparamsE.spouse_pension_rate = 0 ∧ wparamsE.spouse_pension_rate_employer = 0
    ∧ wparamsE.spouse_hishtalmut_rate_employee = 0
    ∧ wparamsE.spouse_hishtalmut_rate_employer = 0
    ∧ wparamsE.income_schedule = [] ∧ wparamsE.spouse_income_schedule = []
    ∧ wparamsE.expense_schedule = [] ∧ wparamsE.one_time_events = []
    ∧ (4 : ℕ) ≤ (total_months wparamsE).toNat
    ∧ (simStateAfter wparamsE (361/6) 60 4).liquid
        ≠ wparamsE.liquid_now + (4 : ℚ) *
            ((wparamsE.gross_income_month
                - calculate_monthly_tax_from_gross wparamsE.gross_income_month)
              + (wparamsE.spouse_gross_income_month
                  - calculate_monthly_tax_from_gross wparamsE.spouse_gross_income_month)
              - wparamsE.spend_month) := by
  refine ⟨?_, by norm_num [wparamsE, wparamsA], by norm_num [wparamsE, wparamsA],
    by norm_num [wparamsE, wparamsA], by norm_num [wparamsE, wparamsA],
    by norm_num [wparamsE, wparamsA], by norm_num [wparamsE, wparamsA],
    by norm_num [wparamsE, wparamsA], by norm_num [wparamsE, wparamsA],
    by norm_num [wparamsE, wparamsA], by norm_num [wparamsE, wparamsA],
    by norm_num [wparamsE, wparamsA], by norm_num [wparamsE, wparamsA],
    by norm_num [wparamsE, wparamsA], ?_, ?_⟩
  · norm_num [validate, wparamsE, wparamsA, incomeScheduleIssue, oneTimeEventIssue,
      expenseScheduleIssue]
  · norm_num [total_months, older_age_now, pyRound, wparamsE, wparamsA]
  · norm_num [simStateAfter, simStep, monthCalc, monthAge, person1Salary, person2Salary,
      applyOneTimeEvents, pensionAfterContrib1, pensionAfterContrib2, liquidAfterEvents,
      pensionNetIncome, oldAgeActive1, oldAgeActive2, oldAgeTotal, get_income_at_age,
      get_expense_at_age, calculate_monthly_tax_from_gross, calculate_income_tax,
      calculate_national_insurance, bracketScan, NATIONAL_INSURANCE, ISRAELI_TAX_BRACKETS,
      initState, wparamsE, wparamsA]

set_option maxRecDepth 100000 in
/-- Witness for the amended C7 at `wparamsE` with N = 2 (both persons still
working and no activation within the window). -/
theorem claim7_witness :
    (simStateAfter wparamsE (361/6) (361/6) 2).liquid
      = wparamsE.liquid_now + (2 : ℚ) *
          ((wparamsE.gross_income_month
              - calculate_monthly_tax_from_gross wparamsE.gross_income_month)
            + (wparamsE.spouse_gross_income_month
                - calculate_monthly_tax_from_gross wparamsE.spouse_gross_income_month)
            - wparamsE.spend_month) :=
  claim7_additive_cash_flow (361/6) wparamsE (some (361/6)) 2
    (by norm_num [validate, wparamsE, wparamsA, incomeScheduleIssue, oneTimeEventIssue,
      expenseScheduleIssue])
    (by norm_num [wparamsE, wparamsA]) (by norm_num [wparamsE, wparamsA])
    (by norm_num [wparamsE, wparamsA]) (by norm_num [wparamsE, wparamsA])
    (by norm_num [wparamsE, wparamsA]) (by norm_num [wparamsE, wparamsA])
    (by norm_num [wparamsE, wparamsA]) (by norm_num [wparamsE, wparamsA])
    (by norm_num [wparamsE, wparamsA]) (by norm_num [wparamsE, wparamsA])
    (by norm_num [wparamsE, wparamsA]) (by norm_num [wparamsE, wparamsA])
    (by norm_num [wparamsE, wparamsA])
    (by intro m hm; interval_cases m <;> norm_num [monthAge, wparamsE, wparamsA])

/-- Banker's rounding never overshoots by more than a half. -/
theorem pyRound_le_add_half (q : ℚ) : (pyRound q : ℚ) ≤ q + 1/2 := by
  unfold pyRound
  have hfl : (⌊q⌋ : ℚ) ≤ q := Int.floor_le q
  dsimp only
  split_ifs with h1 h2 h3
  · linarith
  · push_cast
    linarith
  · push_cast at h1 h2 ⊢
    linarith
  · push_cast at h1 h2 ⊢
    linarith

/-- Banker's rounding of a nonnegative rational is nonnegative. -/
theorem pyRound_nonneg (q : ℚ) (h : 0 ≤ q) : 0 ≤ pyRound q := by
  unfold pyRound
  have hfl : (0 : ℤ) ≤ ⌊q⌋ := Int.floor_nonneg.mpr h
  dsimp only
  split_ifs <;> omega

/-- The scanned month offsets are strictly increasing. -/
theorem scanOffsets_pairwise (T step : ℕ) (h : 0 < step) :
    List.Pairwise (· < ·) (scanOffsets T step) := by
  unfold scanOffsets
  rw [← List.chain'_iff_pairwise, List.range'_succ]
  exact List.chain_lt_range' 0 (T / step) h

/-- Every scanned month offset is at most the scan's month span. -/
theorem scanOffsets_le (T step : ℕ) (m : ℕ) (hm : m ∈ scanOffsets T step) : m ≤ T := by
  unfold scanOffsets at hm
  rcases List.mem_range'.mp hm with ⟨i, hi, rfl⟩
  have h1 : i ≤ T / step := Nat.lt_succ_iff.mp hi
  calc 0 + step * i = step * i := by rw [Nat.zero_add]
    _ ≤ step * (T / step) := Nat.mul_le_mul_left _ h1
    _ = T / step * step := Nat.mul_comm _ _
    _ ≤ T := Nat.div_mul_le_self T step

/-- Every scanned candidate age lies between the clamped bounds. -/
theorem retireCandidates_bounds (lo hi : ℚ) (T step : ℕ) (hle : lo ≤ hi) :
    ∀ a ∈ retireCandidates lo hi T step, lo ≤ a ∧ a ≤ hi := by
  intro a ha
  rcases List.mem_map.mp ha with ⟨m, _, rfl⟩
  unfold clampAge
  by_cases h : hi < lo + (m : ℚ) / 12
  · rw [if_pos h]
    exact ⟨hle, le_refl hi⟩
  · rw [if_neg h]
    have h0 : (0 : ℚ) ≤ (m : ℚ) / 12 := by positivity
    exact ⟨by linarith, not_lt.mp h⟩

/-- The scan starts exactly at the clamped lower bound. -/
theorem retireCandidates_head (lo hi : ℚ) (T step : ℕ) (hle : lo ≤ hi) :
    (retireCandidates lo hi T step).head? = some lo := by
  unfold retireCandidates scanOffsets
  rw [List.range'_succ]
  have h0 : clampAge lo hi 0 = lo := by
    unfold clampAge
    rw [if_neg (by push_cast; linarith)]
    push_cast
    ring
  simp [h0]

/-- The scanned candidate ages are strictly increasing: the clamp can only
bite on the final offset, which exceeds the true month span thanks to the
half-bound on rounding. -/
theorem retireCandidates_pairwise (lo hi : ℚ) (step : ℕ) (hstep : 0 < step) (hle : lo ≤ hi) :
    List.Pairwise (· < ·)
      (retireCandidates lo hi (pyRound ((hi - lo) * 12)).toNat step) := by
  have hT0 : (0 : ℤ) ≤ pyRound ((hi - lo) * 12) :=
    pyRound_nonneg _ (by nlinarith)
  have hTq : (((pyRound ((hi - lo) * 12)).toNat : ℚ)) ≤ (hi - lo) * 12 + 1/2 := by
    have h1 : (((pyRound ((hi - lo) * 12)).toNat : ℤ) : ℚ)
        = ((pyRound ((hi - lo) * 12) : ℤ) : ℚ) := by
      rw [Int.toNat_of_nonneg hT0]
    rw [show (((pyRound ((hi - lo) * 12)).toNat : ℚ))
        = (((pyRound ((hi - lo) * 12)).toNat : ℤ) : ℚ) by push_cast; ring, h1]
    exact pyRound_le_add_half _
  unfold retireCandidates
  rw [List.pairwise_map]
  refine List.Pairwise.imp_of_mem ?_ (scanOffsets_pairwise _ _ hstep)
  intro a b ha hb hab
  have hbT : (b : ℚ) ≤ ((pyRound ((hi - lo) * 12)).toNat : ℚ) := by
    exact_mod_cast scanOffsets_le _ _ b hb
  have hsucc : (a : ℚ) + 1 ≤ (b : ℚ) := by exact_mod_cast Nat.succ_le_of_lt hab
  unfold clampAge
  by_cases h2 : hi < lo + (b : ℚ) / 12
  · rw [if_pos h2]
    have hblt : (hi - lo) * 12 < (b : ℚ) := by linarith
    have hab12 : (a : ℚ) < (hi - lo) * 12 := by linarith
    have ha_lt : lo + (a : ℚ) / 12 < hi := by linarith
    rw [if_neg (not_lt.mpr (le_of_lt ha_lt))]
    exact ha_lt
  · rw [if_neg h2]
    by_cases h1 : hi < lo + (a : ℚ) / 12
    · exact absurd (lt_of_lt_of_le h1 (by linarith)) h2
    · rw [if_neg h1]
      linarith

/-- The scan loop is exactly a first-feasible search over the clamped
candidate ages: once a candidate reaches the upper bound, all later
candidates coincide with it, so the early break loses nothing. -/
theorem scanRetire_eq_find (p : Params) (sra lo hi : ℚ) :
    ∀ ms : List ℕ, List.Pairwise (· < ·) ms →
    scanRetire p sra lo hi ms
      = (match (ms.map (clampAge lo hi)).find?
            (fun a => (simulate a p (some sra)).ok) with
        | some a => (some a, some (simulate a p (some sra)))
        | none => (none, none)) := by
  intro ms
  induction ms with
  | nil => intro _; rfl
  | cons m rest ih =>
    intro hpw
    have htail := List.Pairwise.of_cons hpw
    have hhead : ∀ x ∈ rest, m < x := fun _ hx => List.rel_of_pairwise_cons hpw hx
    simp only [scanRetire, List.map_cons]
    cases hok : (simulate (clampAge lo hi m) p (some sra)).ok with
    | true => simp [hok]
    | false =>
      rw [if_neg (by simp [hok]), List.find?_cons_of_neg _ (by simp [hok])]
      by_cases hend : hi ≤ clampAge lo hi m
      · rw [if_pos hend]
        have hm_eq : clampAge lo hi m = hi := by
          unfold clampAge at hend ⊢
          by_cases hc : hi < lo + (m : ℚ) / 12
          · rw [if_pos hc]
          · rw [if_neg hc]
            rw [if_neg hc] at hend
            exact le_antisymm (not_lt.mp hc) hend
        have hra : hi ≤ lo + (m : ℚ) / 12 := by
          by_cases hc : hi < lo + (m : ℚ) / 12
          · exact le_of_lt hc
          · unfold clampAge at hend
            rwa [if_neg hc] at hend
        have hnone : (rest.map (clampAge lo hi)).find?
            (fun a => (simulate a p (some sra)).ok) = none := by
          rw [List.find?_eq_none]
          intro a ha
          rcases List.mem_map.mp ha with ⟨x, hx, rfl⟩
          have hx_eq : clampAge lo hi x = hi := by
            unfold clampAge
            have hmx : (m : ℚ) ≤ (x : ℚ) := by
              exact_mod_cast le_of_lt (hhead x hx)
            have hmono : lo + (m : ℚ) / 12 ≤ lo + (x : ℚ) / 12 := by linarith
            by_cases hcx : hi < lo + (x : ℚ) / 12
            · rw [if_pos hcx]
            · rw [if_neg hcx]
              exact le_antisymm (not_lt.mp hcx) (le_trans hra hmono)
          rw [hx_eq, ← hm_eq, hok]
          simp
        rw [hnone]
      · rw [if_neg hend]
        exact ih htail

/-- The clamped lower bound is `max(min_age, current age)`. -/
theorem retireLo_eq_max (p : Params) (minAge : Option ℚ) :
    retireLo p minAge = max p.age_now (minAge.getD p.age_now) := by
  unfold retireLo
  by_cases h : minAge.getD p.age_now < p.age_now
  · rw [if_pos h, max_eq_left (le_of_lt h)]
  · rw [if_neg h, max_eq_right (not_lt.mp h)]

/-- The clamped upper bound is `min(pension-activation age, max_age)`. -/
theorem retireHi_eq_min (p : Params) (maxAge : Option ℚ) :
    retireHi p maxAge = min p.pension_start_age (maxAge.getD p.pension_start_age) := by
  unfold retireHi
  by_cases h : p.pension_start_age < maxAge.getD p.pension_start_age
  · rw [if_pos h, min_eq_left (le_of_lt h)]
  · rw [if_neg h, min_eq_right (not_lt.mp h)]

/-- C8: `find_earliest_retirement` clamps the bounds to
`[max(min_age, current age), min(max_age, pension-activation age)]`, returns
`(none, none)` when the clamped range is empty, and otherwise returns the
first (equivalently, since the candidate grid is strictly increasing and
starts at the clamped lower bound, the minimum) scanned candidate age whose
simulation — with person 2's retirement age held fixed — is feasible, paired
with that simulation's result, or `(none, none)` when no scanned candidate
is feasible. -/
theorem claim8_earliest_retirement (p : Params) (minAge maxAge spouseRetire : Option ℚ)
    (step_months : ℕ) (hstep : 0 < step_months) :
    (find_earliest_retirement p minAge maxAge spouseRetire step_months
      = (if retireHi p maxAge < retireLo p minAge then (none, none)
         else
           match (retireCandidates (retireLo p minAge) (retireHi p maxAge)
               (pyRound ((retireHi p maxAge - retireLo p minAge) * 12)).toNat
               step_months).find?
               (fun a => (simulate a p (some (spouseRetire.getD p.spouse_retire_age))).ok) with
           | some a =>
             (some a, some (simulate a p (some (spouseRetire.getD p.spouse_retire_age))))
           | none => (none, none)))
    ∧ retireLo p minAge = max p.age_now (minAge.getD p.age_now)
    ∧ retireHi p maxAge = min p.pension_start_age (maxAge.getD p.pension_start_age)
    ∧ (retireLo p minAge ≤ retireHi p maxAge →
        List.Pairwise (· < ·) (retireCandidates (retireLo p minAge) (retireHi p maxAge)
            (pyRound ((retireHi p maxAge - retireLo p minAge) * 12)).toNat step_months)
        ∧ (retireCandidates (retireLo p minAge) (retireHi p maxAge)
            (pyRound ((retireHi p maxAge - retireLo p minAge) * 12)).toNat
            step_months).head? = some (retireLo p minAge)
        ∧ ∀ a ∈ retireCandidates (retireLo p minAge) (retireHi p maxAge)
            (pyRound ((retireHi p maxAge - retireLo p minAge) * 12)).toNat step_months,
            retireLo p minAge ≤ a ∧ a ≤ retireHi p maxAge) := by
  refine ⟨?_, retireLo_eq_max p minAge, retireHi_eq_min p maxAge, fun hle =>
    ⟨retireCandidates_pairwise _ _ _ hstep hle, retireCandidates_head _ _ _ _ hle,
      retireCandidates_bounds _ _ _ _ hle⟩⟩
  simp only [find_earliest_retirement]
  by_cases hlt : retireHi p maxAge < retireLo p minAge
  · rw [if_pos hlt, if_pos hlt]
  · rw [if_neg hlt, if_neg hlt]
    exact scanRetire_eq_find p _ _ _ _ (scanOffsets_pairwise _ _ hstep)

set_option maxRecDepth 100000 in
set_option maxHeartbeats 2000000 in
/-- Witness for C8: with both clamped bounds equal to 60, the scan grid is
the single feasible candidate 60, which is returned with its result. -/
theorem claim8_witness :
    find_earliest_retirement wparamsA (some 60) (some 60) (some 60) 1
      = (some 60, some (simulate 60 wparamsA (some 60))) := by
  rw [(claim8_earliest_retirement wparamsA (some 60) (some 60) (some 60) 1 (by norm_num)).1]
  norm_num [retireLo, retireHi, retireCandidates, scanOffsets, clampAge, pyRound,
    List.range'_succ, simulate, validate, wparamsA, incomeScheduleIssue, oneTimeEventIssue,
    expenseScheduleIssue, buildResult, simStateAfter, simStep, monthCalc, monthAge,
    person1Salary, person2Salary, applyOneTimeEvents, pensionAfterContrib1,
    pensionAfterContrib2, liquidAfterEvents, pensionNetIncome, oldAgeActive1, oldAgeActive2,
    oldAgeTotal, get_income_at_age, get_expense_at_age, calculate_monthly_tax_from_gross,
    calculate_income_tax, calculate_national_insurance, bracketScan, NATIONAL_INSURANCE,
    ISRAELI_TAX_BRACKETS, initState, total_months, older_age_now, monthEntry]

/-- Invariant carried by the bisection loop's best candidate: it is the
midpoint's own simulation and it passed the acceptance test. -/
def bestValid (p : Params) (ra sra target tolerance : ℚ) : Option (ℚ × Result) → Prop
  | none => True
  | some (spend, r) => r = simulate ra (cloneWithSpend p spend) (some sra)
      ∧ maxExpenseCond target tolerance r = true

/-- The bisection loop preserves `bestValid`. -/
theorem bisectLoop_valid (p : Params) (ra sra target tolerance : ℚ) :
    ∀ (fuel : ℕ) (low high : ℚ) (best : Option (ℚ × Result)),
      bestValid p ra sra target tolerance best →
      bestValid p ra sra target tolerance
        (bisectLoop p ra sra target tolerance fuel low high best) := by
  intro fuel
  induction fuel with
  | zero => intro low high best h; exact h
  | succ f ih =>
    intro low high best h
    simp only [bisectLoop]
    cases hit : maxExpenseCond target tolerance
        (simulate ra (cloneWithSpend p ((low + high) / 2)) (some sra)) with
    | true =>
      simp only [eq_self_iff_true, if_true]
      split_ifs
      · exact ⟨rfl, hit⟩
      · exact ih _ _ _ ⟨rfl, hit⟩
    | false =>
      simp only [Bool.false_eq_true, if_false]
      split_ifs
      · exact h
      · exact ih _ _ _ h

/-- A loop started with a kept candidate never loses it. -/
theorem bisectLoop_some (p : Params) (ra sra target tolerance : ℚ) :
    ∀ (fuel : ℕ) (low high : ℚ) (x : ℚ × Result),
      bisectLoop p ra sra target tolerance fuel low high (some x) ≠ none := by
  intro fuel
  induction fuel with
  | zero => intro low high x h; exact Option.noConfusion h
  | succ f ih =>
    intro low high x
    simp only [bisectLoop]
    cases hit : maxExpenseCond target tolerance
        (simulate ra (cloneWithSpend p ((low + high) / 2)) (some sra)) with
    | true =>
      simp only [eq_self_iff_true, if_true]
      split_ifs
      · exact fun h => Option.noConfusion h
      · exact ih _ _ _
    | false =>
      simp only [Bool.false_eq_true, if_false]
      split_ifs
      · exact fun h => Option.noConfusion h
      · exact ih _ _ _

/-- The loop returns the none sentinel exactly when it started without a
candidate and no evaluated midpoint passed the acceptance test. -/
theorem bisectLoop_none_iff (p : Params) (ra sra target tolerance : ℚ) :
    ∀ (fuel : ℕ) (low high : ℚ) (best : Option (ℚ × Result)),
      (bisectLoop p ra sra target tolerance fuel low high best = none
        ↔ best = none ∧ ∀ pr ∈ bisectTrace p ra sra target tolerance fuel low high,
            maxExpenseCond target tolerance pr.2 = false) := by
  intro fuel
  induction fuel with
  | zero =>
    intro low high best
    simp [bisectLoop, bisectTrace]
  | succ f ih =>
    intro low high best
    simp only [bisectLoop, bisectTrace]
    cases hit : maxExpenseCond target tolerance
        (simulate ra (cloneWithSpend p ((low + high) / 2)) (some sra)) with
    | true =>
      simp only [eq_self_iff_true, if_true]
      constructor
      · intro h
        split_ifs at h <;>
          first
            | simp at h
            | exact absurd h (bisectLoop_some p ra sra target tolerance _ _ _ _)
      · rintro ⟨-, hall⟩
        have hmem := hall ((low + high) / 2,
          simulate ra (cloneWithSpend p ((low + high) / 2)) (some sra))
          (List.mem_cons_self _ _)
        dsimp only at hmem
        rw [hit] at hmem
        exact Bool.noConfusion hmem
    | false =>
      simp only [Bool.false_eq_true, if_false]
      split_ifs with hconv
      · constructor
        · intro h
          refine ⟨h, ?_⟩
          intro pr hpr
          rcases List.mem_cons.mp hpr with rfl | hpr2
          · exact hit
          · exact absurd hpr2 (List.not_mem_nil pr)
        · rintro ⟨h, -⟩; exact h
      · rw [ih]
        constructor
        · rintro ⟨h, hall⟩
          refine ⟨h, ?_⟩
          intro pr hpr
          rcases List.mem_cons.mp hpr with rfl | hpr2
          · exact hit
          · exact hall pr hpr2
        · rintro ⟨h, hall⟩
          exact ⟨h, fun pr hpr => hall pr (List.mem_cons_of_mem _ hpr)⟩

/-- The loop evaluates at most `fuel` midpoints. -/
theorem bisectTrace_length (p : Params) (ra sra target tolerance : ℚ) :
    ∀ (fuel : ℕ) (low high : ℚ),
      (bisectTrace p ra sra target tolerance fuel low high).length ≤ fuel := by
  intro fuel
  induction fuel with
  | zero => intro low high; simp [bisectTrace]
  | succ f ih =>
    intro low high
    simp only [bisectTrace, List.length_cons]
    split_ifs <;>
      first
        | (simp only [List.length_nil]; omega)
        | exact Nat.succ_le_succ (ih _ _)

/-- Every evaluated pair is a midpoint together with the simulation of the
parameter set cloned with that midpoint as the monthly expense. -/
theorem bisectTrace_mem (p : Params) (ra sra target tolerance : ℚ) :
    ∀ (fuel : ℕ) (low high : ℚ) (pr : ℚ × Result),
      pr ∈ bisectTrace p ra sra target tolerance fuel low high →
      pr.2 = simulate ra (cloneWithSpend p pr.1) (some sra) := by
  intro fuel
  induction fuel with
  | zero => intro low high pr h; exact absurd h (List.not_mem_nil pr)
  | succ f ih =>
    intro low high pr hpr
    simp only [bisectTrace] at hpr
    rcases List.mem_cons.mp hpr with rfl | hpr2
    · rfl
    · split_ifs at hpr2 <;>
        first
          | exact absurd hpr2 (List.not_mem_nil pr)
          | exact ih _ _ pr hpr2

/-- C6 (amended): when `find_max_monthly_expense` returns an expense, that
expense's own direct simulation (same retirement ages) is the returned
result, is feasible, and has end assets at least `target - tolerance`
(one-sided: the end assets may exceed the target by more than the
tolerance); the none sentinel is returned exactly when no evaluated
midpoint produced a feasible result meeting the target; each evaluated pair
is the simulation of the parameter set cloned with the midpoint as the
monthly expense; and at most `max_iterations` midpoints are evaluated. -/
theorem claim6_max_expense (p : Params) (target : ℚ) (retireOpt spouseRetireOpt : Option ℚ)
    (tolerance : ℚ) (max_iterations : ℕ) :
    (∀ s r, find_max_monthly_expense p target retireOpt spouseRetireOpt tolerance
          max_iterations = (some s, some r) →
        r = simulate (retireOpt.getD p.retire_age) (cloneWithSpend p s)
            (some (spouseRetireOpt.getD p.spouse_retire_age))
        ∧ r.ok = true ∧ target - tolerance ≤ r.liquid_end)
    ∧ (find_max_monthly_expense p target retireOpt spouseRetireOpt tolerance max_iterations
          = (none, none)
        ↔ ∀ pr ∈ bisectTrace p (retireOpt.getD p.retire_age)
            (spouseRetireOpt.getD p.spouse_retire_age) target tolerance max_iterations
            0 (bisectHigh p),
            maxExpenseCond target tolerance pr.2 = false)
    ∧ (bisectTrace p (retireOpt.getD p.retire_age) (spouseRetireOpt.getD p.spouse_retire_age)
        target tolerance max_iterations 0 (bisectHigh p)).length ≤ max_iterations
    ∧ (∀ pr ∈ bisectTrace p (retireOpt.getD p.retire_age)
          (spouseRetireOpt.getD p.spouse_retire_age) target tolerance max_iterations
          0 (bisectHigh p),
        pr.2 = simulate (retireOpt.getD p.retire_age) (cloneWithSpend p pr.1)
            (some (spouseRetireOpt.getD p.spouse_retire_age))) := by
  refine ⟨?_, ?_, bisectTrace_length p _ _ _ _ _ _ _, bisectTrace_mem p _ _ _ _ _ _ _⟩
  · intro s r hret
    simp only [find_max_monthly_expense] at hret
    cases hb : bisectLoop p (retireOpt.getD p.retire_age)
        (spouseRetireOpt.getD p.spouse_retire_age) target tolerance max_iterations
        0 (bisectHigh p) none with
    | none => rw [hb] at hret; exact absurd hret (by simp)
    | some x =>
      rw [hb] at hret
      have hvalid : bestValid p (retireOpt.getD p.retire_age)
          (spouseRetireOpt.getD p.spouse_retire_age) target tolerance (some x) := by
        rw [← hb]
        exact bisectLoop_valid p _ _ _ _ _ _ _ none trivial
      obtain ⟨x1, x2⟩ := x
      obtain ⟨hsim, hcond⟩ := hvalid
      dsimp only at hret
      rw [if_pos hcond] at hret
      have hs : x1 = s := by
        have := congrArg Prod.fst hret
        simpa using this
      have hr : x2 = r := by
        have := congrArg Prod.snd hret
        simpa using this
      have hcond2 : x2.ok = true ∧ target - tolerance ≤ x2.liquid_end := by
        simpa [maxExpenseCond] using hcond
      rw [← hs, ← hr]
      exact ⟨hsim, hcond2.1, hcond2.2⟩
  · simp only [find_max_monthly_expense]
    cases hb : bisectLoop p (retireOpt.getD p.retire_age)
        (spouseRetireOpt.getD p.spouse_retire_age) target tolerance max_iterations
        0 (bisectHigh p) none with
    | none =>
      have hall := (bisectLoop_none_iff p _ _ _ _ max_iterations 0 (bisectHigh p) none).mp hb
      constructor
      · intro _
        exact hall.2
      · intro _
        rfl
    | some x =>
      have hvalid : bestValid p (retireOpt.getD p.retire_age)
          (spouseRetireOpt.getD p.spouse_retire_age) target tolerance (some x) := by
        rw [← hb]
        exact bisectLoop_valid p _ _ _ _ _ _ _ none trivial
      obtain ⟨x1, x2⟩ := x
      obtain ⟨hsim, hcond⟩ := hvalid
      dsimp only
      rw [if_pos hcond]
      constructor
      · intro h
        exact absurd (congrArg Prod.fst h) (by simp)
      · intro hall
        have : bisectLoop p (retireOpt.getD p.retire_age)
            (spouseRetireOpt.getD p.spouse_retire_age) target tolerance max_iterations
            0 (bisectHigh p) none = none :=
          (bisectLoop_none_iff p _ _ _ _ max_iterations 0 (bisectHigh p) none).mpr
            ⟨rfl, hall⟩
        rw [hb] at this
        exact absurd this (by simp)

/-- Checks that a `find_max_monthly_expense` outcome carries a feasible
result whose end assets exceed the target by MORE than the tolerance (the
two-sided reading of "within tolerance" is then violated). -/
def tolViolation (out : Option ℚ × Option Result) (target tolerance : ℚ) : Bool :=
  match out.2 with
  | some r => r.ok && decide (target + tolerance < r.liquid_end)
  | none => false

/-- Counterexample parameter set for C6 as stated: no income, liquid
1.2M, floor 0, and a +10M one-time inflow in the last of two months.
Every candidate expense is feasible, so the bisection converges near its
upper bound while the run ends with about 8.8M — far above the target 0. -/
def wparamsF : Params :=
  { wparamsA with
    end_age := 361/6, liquid_now := 1200000, min_assets := 0,
    one_time_events := [(721/12, 10000000, "windfall")] }

set_option maxRecDepth 1000000 in
set_option maxHeartbeats 16000000 in
/-- Counterexample to C6 as stated: the returned expense's simulation is
feasible, but its end assets are more than `tolerance` above
`target_end_assets` — the returned value is not within tolerance of the
target, only above `target - tolerance`. -/
theorem claim6_counterexample :
    tolViolation (find_max_monthly_expense wparamsF 0 (some 60) (some 60) 100000 50) 0 100000
      = true := by
  norm_num [tolViolation, find_max_monthly_expense, bisectLoop, bisectHigh, cloneWithSpend,
    maxExpenseCond, simulate, validate, wparamsF, wparamsA, incomeScheduleIssue,
    oneTimeEventIssue, expenseScheduleIssue, buildResult, simStateAfter, simStep, monthCalc,
    monthAge, person1Salary, person2Salary, applyOneTimeEvents, pensionAfterContrib1,
    pensionAfterContrib2, liquidAfterEvents, pensionNetIncome, oldAgeActive1, oldAgeActive2,
    oldAgeTotal, get_income_at_age, get_expense_at_age, calculate_monthly_tax_from_gross,
    calculate_income_tax, calculate_national_insurance, bracketScan, NATIONAL_INSURANCE,
    ISRAELI_TAX_BRACKETS, initState, total_months, older_age_now, pyRound, monthEntry]

set_option maxRecDepth 1000000 in
set_option maxHeartbeats 8000000 in
/-- Witness for the amended C6: at `wparamsB` (unreachable floor), every
evaluated midpoint fails, so the none sentinel is returned. -/
theorem claim6_witness :
    find_max_monthly_expense wparamsB 0 (some 60) (some 60) 1000 50 = (none, none) :=
  (claim6_max_expense wparamsB 0 (some 60) (some 60) 1000 50).2.1.mpr
    (by norm_num [bisectTrace, bisectHigh, cloneWithSpend, maxExpenseCond, simulate, validate,
      wparamsB, wparamsA, incomeScheduleIssue, oneTimeEventIssue, expenseScheduleIssue,
      buildResult, simStateAfter, simStep, monthCalc, monthAge, person1Salary, person2Salary,
      applyOneTimeEvents, pensionAfterContrib1, pensionAfterContrib2, liquidAfterEvents,
      pensionNetIncome, oldAgeActive1, oldAgeActive2, oldAgeTotal, get_income_at_age,
      get_expense_at_age, calculate_monthly_tax_from_gross, calculate_income_tax,
      calculate_national_insurance, bracketScan, NATIONAL_INSURANCE, ISRAELI_TAX_BRACKETS,
      initState, total_months, older_age_now, pyRound, monthEntry])
